import Mathlib

/-!
Shallow embedding of `yolink_devices.py` (YoLink device table script) and
verification of its specification claims.

Modelling conventions:
* Python strings are Lean `String`s; `len`, slicing and concatenation are
  modelled on the underlying character list (Python indexes code points,
  as does `String.toList`).
* Python `f"{x:^w}" / {x:>w} / {x:<w}` pad with spaces up to a *minimum*
  width `w`; they never truncate.  For centering, CPython puts the extra
  space (odd padding) on the right.
* Python floats are modelled as exact fractions (`PyNum`, an integer
  numerator with a positive integer denominator).  `f"{v:.1f}"` is
  modelled as rounding the exact value half-to-even to one decimal; for
  values exactly representable in one decimal digit (every value the
  claims touch) this agrees with CPython.
* The network is an oracle: each HTTP call's outcome is an explicit input
  (`FetchOutcome`), either a raised exception (`requests` errors, HTTP
  error status, JSON decode failure) or a parsed JSON document (`JVal`).
* An uncaught Python exception is modelled by `Except.error`; stdout and
  stderr are lists of the strings passed to `print` (one element per
  `print` call).
* The process-local timezone used by `datetime.astimezone()` is threaded
  in explicitly as a UTC offset in minutes (`localOff`).
-/

namespace YoLink

/-! ## Python string primitives -/

/-- `n` spaces. -/
def spaces (n : Nat) : String := String.mk (List.replicate n ' ')

/-- Python `f"{s:>w}"`: right-align in a field of minimum width `w`. -/
def pyRJust (s : String) (w : Nat) : String := spaces (w - s.length) ++ s

/-- Python `f"{s:<w}"`: left-align in a field of minimum width `w`. -/
def pyLJust (s : String) (w : Nat) : String := s ++ spaces (w - s.length)

/-- Python `f"{s:^w}"`: center in a field of minimum width `w`;
CPython puts the extra space of an odd padding on the right. -/
def pyCenter (s : String) (w : Nat) : String :=
  let pad := w - s.length
  spaces (pad / 2) ++ s ++ spaces (pad - pad / 2)

/-- Python `str.lower` (ASCII model; the hub's strings are ASCII). -/
def pyLower (s : String) : String := String.mk (s.toList.map Char.toLower)

/-- The characters Python `str.strip()` removes (ASCII whitespace model). -/
def pyIsSpace (c : Char) : Bool :=
  c = ' ' || c = '\t' || c = '\n' || c = '\r' || c = '\x0b' || c = '\x0c'

/-- Python `str.strip()`. -/
def pyStrip (s : String) : String :=
  String.mk (((s.toList.dropWhile pyIsSpace).reverse.dropWhile pyIsSpace).reverse)

/-- Python `s[:n]` on a string. -/
def pyTake (s : String) (n : Nat) : String := String.mk (s.toList.take n)

/-- Python `needle in haystack` for strings (substring test). -/
def strContainsSub (hay needle : String) : Bool :=
  go hay.toList needle.toList
where
  /-- walk the haystack looking for the needle at each position -/
  go : List Char → List Char → Bool
    | _, [] => true
    | [], _ :: _ => false
    | h :: hs, n :: ns => (isPre (n :: ns) (h :: hs)) || go hs (n :: ns)
  /-- needle is a prefix of the list -/
  isPre : List Char → List Char → Bool
    | [], _ => true
    | _ :: _, [] => false
    | a :: as, b :: bs => a = b && isPre as bs

/-- Python string `<` (lexicographic on code points), on char lists. -/
def clistLt : List Char → List Char → Bool
  | [], [] => false
  | [], _ :: _ => true
  | _ :: _, [] => false
  | a :: as, b :: bs =>
    if a.toNat < b.toNat then true
    else if b.toNat < a.toNat then false
    else clistLt as bs

/-- Python string `<`. -/
def strLt (a b : String) : Bool := clistLt a.toList b.toList

/-! ## Python numbers

`PyNum` models the exact value of a Python `int` or `float` as a fraction.
The denominator is kept positive by construction at every use site. -/

structure PyNum where
  num : Int
  den : Int

/-- The integer `n` as a `PyNum`. -/
def PyNum.ofInt (n : Int) : PyNum := ⟨n, 1⟩

/-- Python true division `a / b` (both operands numeric).  The result's
denominator is normalised to be positive. -/
def PyNum.div (a b : PyNum) : PyNum :=
  let n := a.num * b.den
  let d := a.den * b.num
  if d < 0 then ⟨-n, -d⟩ else ⟨n, d⟩

/-- Python multiplication `a * b`. -/
def PyNum.mul (a b : PyNum) : PyNum := ⟨a.num * b.num, a.den * b.den⟩

/-- Python `int(v)`: truncation toward zero. -/
def PyNum.trunc (v : PyNum) : Int := v.num.tdiv v.den

/-- Python `v == w` on numbers: equality of exact values. -/
def PyNum.valEq (a b : PyNum) : Bool := a.num * b.den = b.num * a.den

/-- Round the fraction `a / b` (with `b > 0`) to the nearest integer,
ties to even — the rounding used by Python's `round` and by `%.1f`
formatting (on the exact value; see the module comment). -/
def roundHalfEven (a b : Int) : Int :=
  let q := a.fdiv b
  let r := a.fmod b
  if 2 * r < b then q
  else if b < 2 * r then q + 1
  else if q % 2 = 0 then q else q + 1

/-- Python `round(v)`. -/
def PyNum.round (v : PyNum) : Int := roundHalfEven v.num v.den

/-- Python `f"{v:.1f}"`: the value rendered with exactly one decimal
digit.  A negative value that rounds to zero keeps its sign
(`f"{-0.04:.1f}" == "-0.0"`). -/
def formatFix1 (v : PyNum) : String :=
  let n := roundHalfEven (v.num * 10) v.den
  let sign := if n < 0 ∨ (n = 0 ∧ v.num < 0) then "-" else ""
  let m := n.natAbs
  sign ++ toString (m / 10) ++ "." ++ toString (m % 10)

/-! ## Field extractors (from `yolink_devices.py`) -/

/-- `get_model_from_appeui` (lines 125–130): extract the model code from
characters 6..10 of the appEui, rendered as `YS<code>-UC`; `"N/A"` when
the string is empty (falsy) or shorter than 10 characters. -/
def get_model_from_appeui (appeui : String) : String :=
  if appeui ≠ "" ∧ 10 ≤ appeui.length then
    "YS" ++ String.mk ((appeui.toList.drop 6).take 4) ++ "-UC"
  else "N/A"

/-- `format_device_type` (lines 133–145): human-readable device type.
The dictionary lookup with default is modelled as a conditional chain. -/
def format_device_type (device_type : String) (model : String) : String :=
  if model = "YS7706-UC" then "Garage door sensor"
  else if device_type = "MotionSensor" then "Motion sensor"
  else if device_type = "THSensor" then "Temperature sensor"
  else if device_type = "DoorSensor" then "Door sensor"
  else if device_type = "LeakSensor" then "Leak sensor"
  else device_type

/-- `format_temperature` (lines 148–167).  `none` models Python `None`. -/
def format_temperature (temp_value : Option PyNum) (device_type : String) : String :=
  match temp_value with
  | none => pyCenter "N/A" 7
  | some v =>
    let temp_str :=
      if device_type = "THSensor" then
        pyRJust (formatFix1 v) 5 ++ "C"
      else
        if v.valEq (PyNum.ofInt v.trunc) then
          pyRJust (toString v.trunc) 3 ++ "  C"
        else
          pyRJust (formatFix1 v) 5 ++ "C"
    pyRJust temp_str 7

/-! ## Dates and times

`datetime` is modelled by `PyDateTime`; a timezone-aware value carries its
UTC offset in minutes, a naive value carries `none`. -/

/-- Gregorian leap year. -/
def isLeap (y : Int) : Bool := y % 4 = 0 && (y % 100 ≠ 0 || y % 400 = 0)

/-- Number of days of month `m` (1–12) in year `y`. -/
def daysInMonth (y : Int) (m : Nat) : Nat :=
  if m = 2 then (if isLeap y then 29 else 28)
  else if m = 4 ∨ m = 6 ∨ m = 9 ∨ m = 11 then 30 else 31

structure PyDateTime where
  year : Int
  month : Nat
  day : Nat
  hour : Nat
  minute : Nat
  second : Nat
  micro : Nat
  /-- UTC offset in minutes, `none` when the datetime is naive -/
  offset : Option Int

/-- Calendar successor of a day. -/
def nextDay : Int × Nat × Nat → Int × Nat × Nat
  | (y, m, d) =>
    if d < daysInMonth y m then (y, m, d + 1)
    else if m < 12 then (y, m + 1, 1)
    else (y + 1, 1, 1)

/-- Calendar predecessor of a day. -/
def prevDay : Int × Nat × Nat → Int × Nat × Nat
  | (y, m, d) =>
    if 1 < d then (y, m, d - 1)
    else if 1 < m then (y, m - 1, daysInMonth y (m - 1))
    else (y - 1, 12, 31)

/-- Shift a calendar day by `k` days. -/
def addDays (k : Int) (x : Int × Nat × Nat) : Int × Nat × Nat :=
  if 0 ≤ k then nextDay^[k.toNat] x else prevDay^[(-k).toNat] x

/-- `datetime.astimezone()` with the process-local UTC offset `localOff`
(in minutes).  A naive datetime is interpreted as local time, so its
fields are unchanged; an aware one is converted.  A result outside
Python's year range 1–9999 raises `OverflowError`, modelled as `none`. -/
def toLocal (localOff : Int) (dt : PyDateTime) : Option PyDateTime :=
  match dt.offset with
  | none => some { dt with offset := some localOff }
  | some off =>
    let t : Int := dt.hour * 60 + dt.minute + (localOff - off)
    let dayShift := t.ediv 1440
    let rem := (t.emod 1440).toNat
    let (y, mo, d) := addDays dayShift (dt.year, dt.month, dt.day)
    if 1 ≤ y ∧ y ≤ 9999 then
      some ⟨y, mo, d, rem / 60, rem % 60, dt.second, dt.micro, some localOff⟩
    else none

/-- Zero-pad a value to two digits. -/
def pad2 (n : Nat) : String := if n < 10 then "0" ++ toString n else toString n

/-- `datetime.strftime('%Y-%m-%d %H:%M:%S')` (glibc renders `%Y` without
padding; all parsed years have four digits anyway). -/
def strftimeYmdHms (dt : PyDateTime) : String :=
  toString dt.year ++ "-" ++ pad2 dt.month ++ "-" ++ pad2 dt.day ++ " "
    ++ pad2 dt.hour ++ ":" ++ pad2 dt.minute ++ ":" ++ pad2 dt.second

/-! Parsing: `datetime.fromisoformat`, for the ISO-8601 shapes the hub can
send — `YYYY-MM-DD`, optionally followed by a `T`/`t`/space separator,
`HH:MM`, optional `:SS` with optional 1–6 digit fraction, and an optional
`±HH:MM` numeric offset.  Anything else is a parse failure (`None`). -/

/-- Numeric value of a digit list (most significant first). -/
def digitsToNat (cs : List Char) : Nat := cs.foldl (fun a c => a * 10 + (c.toNat - 48)) 0

/-- Read exactly `n` decimal digits. -/
def readN (n : Nat) (cs : List Char) : Option (Nat × List Char) :=
  let pre := cs.take n
  if pre.length = n ∧ pre.all Char.isDigit then some (digitsToNat pre, cs.drop n) else none

/-- Consume one expected character. -/
def expectCh (c : Char) : List Char → Option (List Char)
  | x :: xs => if x = c then some xs else none
  | [] => none

/-- A 1–6 digit fraction, scaled to microseconds. -/
def parseFraction (cs : List Char) : Option (Nat × List Char) :=
  let ds := cs.takeWhile Char.isDigit
  if 1 ≤ ds.length ∧ ds.length ≤ 6 then
    some (digitsToNat ds * 10 ^ (6 - ds.length), cs.drop ds.length)
  else none

/-- A trailing UTC offset (`±HH:MM`) or end of input. -/
def parseOffset : List Char → Option (Option Int)
  | [] => some none
  | c :: cs =>
    if c = '+' ∨ c = '-' then
      match readN 2 cs with
      | none => none
      | some (h, r1) =>
        match expectCh ':' r1 with
        | none => none
        | some r2 =>
          match readN 2 r2 with
          | none => none
          | some (m, r3) =>
            if h ≤ 23 ∧ m ≤ 59 ∧ r3 = [] then
              some (some (if c = '-' then -(h * 60 + m : Int) else (h * 60 + m : Int)))
            else none
    else none

/-- The optional fraction after the seconds (`.ffffff` or `,ffffff`). -/
def parseFracTail (sec : Nat) (ra : List Char) : Option (Nat × Nat × List Char) :=
  match ra with
  | c :: rb =>
    if c = '.' ∨ c = ',' then
      match parseFraction rb with
      | none => none
      | some (mic, rc) => some (sec, mic, rc)
    else some (sec, 0, c :: rb)
  | [] => some (sec, 0, [])

/-- Optional `:SS[.ffffff]` seconds part. -/
def parseSecFrac : List Char → Option (Nat × Nat × List Char)
  | c :: r =>
    if c = ':' then
      match readN 2 r with
      | none => none
      | some (sec, ra) => if sec ≤ 59 then parseFracTail sec ra else none
    else some (0, 0, c :: r)
  | [] => some (0, 0, [])

/-- `datetime.fromisoformat` (subset; see above). -/
def pyFromIsoformat (s : String) : Option PyDateTime := do
  let cs := s.toList
  let (y, r1) ← readN 4 cs
  let r2 ← expectCh '-' r1
  let (mo, r3) ← readN 2 r2
  let r4 ← expectCh '-' r3
  let (d, r5) ← readN 2 r4
  if 1 ≤ y ∧ 1 ≤ mo ∧ mo ≤ 12 ∧ 1 ≤ d ∧ d ≤ daysInMonth y mo then
    match r5 with
    | [] => some ⟨y, mo, d, 0, 0, 0, 0, none⟩
    | sep :: r6 =>
      if sep = 'T' ∨ sep = 't' ∨ sep = ' ' then do
        let (h, r7) ← readN 2 r6
        let r8 ← expectCh ':' r7
        let (mi, r9) ← readN 2 r8
        if h ≤ 23 ∧ mi ≤ 59 then do
          let (sec, mic, r10) ← parseSecFrac r9
          let off ← parseOffset r10
          some ⟨y, mo, d, h, mi, sec, mic, off⟩
        else none
      else none
  else none

/-- `report_at_str.replace('Z', '+00:00')`: the pattern is a single
character, so the replacement expands each `Z`. -/
def pyReplaceZ (s : String) : String :=
  String.mk (s.toList.foldr (fun c acc => (if c = 'Z' then ['+', '0', '0', ':', '0', '0'] else [c]) ++ acc) [])

/-- `format_report_time` (lines 171–189): local `YYYY-MM-DD HH:MM:SS`
centered in 19 characters; `"N/A"` centered in 19 characters for a falsy
argument or whenever parsing or conversion raises. -/
def format_report_time (localOff : Int) (report_at_str : String) : String :=
  if report_at_str = "" then pyCenter "N/A" 19
  else
    match pyFromIsoformat (pyReplaceZ report_at_str) with
    | none => pyCenter "N/A" 19
    | some dt =>
      match toLocal localOff dt with
      | none => pyCenter "N/A" 19
      | some lt => pyCenter (strftimeYmdHms lt) 19

/-! ## JSON values

Parsed JSON documents.  Python `dict`s keep insertion order and unique
keys; they are modelled as association lists. -/

inductive JVal where
  | jstr (s : String)
  | jint (n : Int)
  | jfloat (v : PyNum)
  | jbool (b : Bool)
  | jnull
  | jobj (o : List (String × JVal))
  | jarr (a : List JVal)

/-- `dict` lookup (first matching key). -/
def jget : List (String × JVal) → String → Option JVal
  | [], _ => none
  | (k, v) :: rest, key => if k = key then some v else jget rest key

/-- Python truthiness of a JSON value. -/
def jtruthy : JVal → Bool
  | .jstr s => s ≠ ""
  | .jint n => n ≠ 0
  | .jfloat v => v.num ≠ 0
  | .jbool b => b
  | .jnull => false
  | .jobj o => !o.isEmpty
  | .jarr a => !a.isEmpty

/-- Python `v == s` for a string literal `s`: true only for equal strings. -/
def jvalEqStr (v : JVal) (s : String) : Bool :=
  match v with
  | .jstr t => t = s
  | _ => false

/-- The envelope success test `code in ['0', '000000']` (membership uses
`==`, so only the equal strings match). -/
def codeOk (v : JVal) : Bool :=
  match v with
  | .jstr s => s = "0" || s = "000000"
  | _ => false

/-- Pad a digit string on the left with zeros to length `k`. -/
def padZeros (s : String) (k : Nat) : String :=
  String.mk (List.replicate (k - s.length) '0') ++ s

/-- `repr` of a Python float, modelled as the exact decimal expansion when
the value has one (up to 17 fractional digits), else a 17-digit
truncation.  Every float the script can print is decimal-representable. -/
def floatRepr (v : PyNum) : String :=
  let sign := if v.num < 0 then "-" else ""
  let a := v.num.natAbs
  let b := v.den.natAbs
  let ip := a / b
  let rem := a % b
  if rem = 0 then sign ++ toString ip ++ ".0"
  else
    let k := (((List.range 17).map (· + 1)).find? fun k => rem * 10 ^ k % b = 0).getD 17
    sign ++ toString ip ++ "." ++ padZeros (toString (rem * 10 ^ k / b)) k

mutual
/-- Python `repr()` of a JSON value. -/
def pyRepr : JVal → String
  | .jstr s => "'" ++ s ++ "'"
  | .jint n => toString n
  | .jfloat v => floatRepr v
  | .jbool b => if b then "True" else "False"
  | .jnull => "None"
  | .jobj o => "\x7b" ++ pyReprObj o ++ "\x7d"
  | .jarr a => "[" ++ pyReprArr a ++ "]"

/-- comma-separated `'key': repr(value)` items -/
def pyReprObj : List (String × JVal) → String
  | [] => ""
  | [(k, v)] => "'" ++ k ++ "': " ++ pyRepr v
  | (k, v) :: rest => "'" ++ k ++ "': " ++ pyRepr v ++ ", " ++ pyReprObj rest

/-- comma-separated `repr(value)` items -/
def pyReprArr : List JVal → String
  | [] => ""
  | [v] => pyRepr v
  | v :: rest => pyRepr v ++ ", " ++ pyReprArr rest
end

/-- Python `str()`: identity on strings, `repr` otherwise. -/
def pyStr : JVal → String
  | .jstr s => s
  | v => pyRepr v

/-! ## Transport oracle and `get_device_properties` -/

/-- The outcome of one HTTP call: a raised exception (`requests` error,
HTTP error status or JSON decode failure) carrying its message, or the
parsed JSON body. -/
inductive FetchOutcome where
  | exc (msg : String)
  | ok (result : JVal)

/-- `x.get(key, default)`: `AttributeError` when `x` is not a dict. -/
def pyDictGet (v : JVal) (k : String) (dflt : JVal) : Except String JVal :=
  match v with
  | .jobj o => .ok ((jget o k).getD dflt)
  | _ => .error "AttributeError: get"

/-- `x.get(key)` (no default). -/
def pyDictGetOpt (v : JVal) (k : String) : Except String (Option JVal) :=
  match v with
  | .jobj o => .ok (jget o k)
  | _ => .error "AttributeError: get"

/-- Require a Python `str` (methods such as `.lower()`/`.replace()` raise
on other types). -/
def pyAsStr (v : JVal) (err : String) : Except String String :=
  match v with
  | .jstr s => .ok s
  | _ => .error err

/-- Numeric coercion for arithmetic (`bool` is an `int` in Python); other
operands raise `TypeError`. -/
def pyToNum : JVal → Except String PyNum
  | .jint n => .ok (PyNum.ofInt n)
  | .jfloat v => .ok v
  | .jbool b => .ok (PyNum.ofInt (if b then 1 else 0))
  | _ => .error "TypeError: unsupported operand type"

/-- Decimal literal accepted by `float(str)` (optional sign, digits with
optional fraction; exponents and specials are not modelled). -/
def parseFloatLit (s : String) : Option PyNum :=
  let cs := s.toList
  let (sgn, cs') : Int × List Char :=
    match cs with
    | '-' :: r => (-1, r)
    | '+' :: r => (1, r)
    | _ => (1, cs)
  let ds := cs'.takeWhile Char.isDigit
  let rest := cs'.drop ds.length
  match rest with
  | [] => if ds.isEmpty then none else some ⟨sgn * digitsToNat ds, 1⟩
  | '.' :: fs =>
    if fs.all Char.isDigit ∧ ¬(ds.isEmpty ∧ fs.isEmpty) then
      some ⟨sgn * digitsToNat (ds ++ fs), (10 : Int) ^ fs.length⟩
    else none
  | _ => none

/-- Python `float(x)`. -/
def pyFloatFn : JVal → Except String PyNum
  | .jint n => .ok (PyNum.ofInt n)
  | .jfloat v => .ok v
  | .jbool b => .ok (PyNum.ofInt (if b then 1 else 0))
  | .jstr s =>
    match parseFloatLit s with
    | some v => .ok v
    | none => .error "ValueError: could not convert string to float"
  | _ => .error "TypeError: float() argument"

/-- The warning printed to stderr by `get_device_properties`. -/
def warnFetch (device_id : String) (e : String) : String :=
  "Warning: Could not fetch properties for " ++ device_id ++ ": " ++ e

/-- Result of `get_device_properties`: the `(state_data, full_response)`
pair plus the warnings it printed to stderr. -/
structure DevProps where
  properties : Option JVal
  response : Option JVal
  warnings : List String

/-- The envelope processing inside `get_device_properties`'s `try` body
(lines 216–225): success gives `(state_data, result)`, a non-success code
gives `(None, result)`, an envelope whose shape makes an access raise
gives the exception. -/
def getStateBody (result : JVal) : Except String (Option JVal × Option JVal) := do
  let code ← pyDictGet result "code" (.jstr "0")
  if codeOk code then do
    let dataV ← pyDictGet result "data" (.jobj [])
    let st ← pyDictGet dataV "state" (.jobj [])
    Except.ok (some st, some result)
  else Except.ok (none, some result)

/-- `get_device_properties` (lines 194–228).  The whole body sits in a
`try`, so any exception — transport, HTTP status, JSON decoding
(`FetchOutcome.exc`) or envelope-shape errors while extracting — is
caught, a warning is printed, and `(None, None)` is returned.  A non-
success `code` returns `(None, result)` with no warning. -/
def get_device_properties (device_id : String) (outcome : FetchOutcome) : DevProps :=
  match outcome with
  | .exc e => ⟨none, none, [warnFetch device_id e]⟩
  | .ok result =>
    match getStateBody result with
    | .ok (p, r) => ⟨p, r, []⟩
    | .error e => ⟨none, none, [warnFetch device_id e]⟩

/-! ## Catalog entries, rows and the per-device loop -/

/-- One catalog entry (`DeviceSummary`): the five keys the script reads,
each possibly absent.  Per the hub schema all five are strings. -/
structure Device where
  deviceId : Option String
  name : Option String
  type : Option String
  token : Option String
  appEui : Option String

/-- One table row, in the order appended at line 320.  All fields are
pre-formatted strings except `version`, which the script copies verbatim
from the state payload (line 285). -/
structure Row where
  type : String
  name : String
  deviceId : String
  model : String
  battery : String
  temp : String
  lastContact : String
  noMotionDelay : String
  sensitivity : String
  state : String
  version : JVal

/-- One element of `json_responses` (lines 258–262). -/
structure JsonEntry where
  deviceId : String
  name : String
  response : JVal

/-- The state-derived fields produced by the `if properties:` block
(lines 267–314); `temperature` is `none` when the block did not run. -/
structure StateFields where
  battery : String
  temperature : Option String
  version : JVal
  state_str : String
  nomotion : String
  sensitivity : String

/-- Defaults from lines 248–253. -/
def defaultStateFields : StateFields :=
  ⟨"N/A", none, .jstr "N/A", "N/A", "N/A", "N/A"⟩

/-- The battery extraction (lines 269–272): when a `battery` key exists,
`int(battery / 4 * 100)` suffixed with `"%"`; otherwise the default
`"N/A"`. -/
def batteryField (o : List (String × JVal)) : Except String String :=
  match jget o "battery" with
  | some bv => do
    let q ← pyToNum bv
    Except.ok (toString ((q.div (PyNum.ofInt 4)).mul (PyNum.ofInt 100)).trunc ++ "%")
  | none => Except.ok "N/A"

/-- The temperature probing (lines 274–280): `devTemperature`, then
`temperature`, then `temp`; the first present value is converted with
`float()`. -/
def tempProbe (o : List (String × JVal)) : Except String (Option PyNum) :=
  match jget o "devTemperature" with
  | some tv => (pyFloatFn tv).map some
  | none =>
    match jget o "temperature" with
    | some tv => (pyFloatFn tv).map some
    | none =>
      match jget o "temp" with
      | some tv => (pyFloatFn tv).map some
      | none => Except.ok none

/-- The firmware version extraction (lines 284–285): the raw value copied
verbatim, defaulting to `"N/A"`. -/
def versionField (o : List (String × JVal)) : JVal :=
  (jget o "version").getD (.jstr "N/A")

/-- The shared `alert`/`normal`/`off`/other dispatch of the motion and
leak branches (lines 291–296 and 302–307): `alert` and `normal`/`off` map
to fixed texts, anything else is lower-cased (raising on non-strings). -/
def stateLowerOf (alertStr normalStr : String) (raw : JVal) : Except String String :=
  if jvalEqStr raw "alert" then Except.ok alertStr
  else if jvalEqStr raw "normal" || jvalEqStr raw "off" then Except.ok normalStr
  else do
    let s ← pyAsStr raw "AttributeError: lower"
    Except.ok (pyLower s)

/-- The state-summary dispatch (lines 287–314), producing
`(state_str, nomotion, sensitivity)`.  Reached only for a truthy dict, so
`o` is non-empty. -/
def stateSummary (device_type : String) (o : List (String × JVal)) :
    Except String (String × String × String) :=
  if device_type = "MotionSensor" then do
    let st ← stateLowerOf "motion detected" "no motion" ((jget o "state").getD (.jstr "N/A"))
    Except.ok (st, pyStr ((jget o "nomotionDelay").getD (.jstr "N/A")),
               pyStr ((jget o "sensitivity").getD (.jstr "N/A")))
  else if device_type = "LeakSensor" then do
    let st ← stateLowerOf "wet" "dry" ((jget o "state").getD (.jstr "N/A"))
    Except.ok (st, "N/A", "N/A")
  else
    match jget o "state" with
    | some sv => do
      let s ← pyAsStr sv "TypeError: state is not subscriptable text"
      Except.ok (pyLower (pyTake s 20), "N/A", "N/A")
    | none =>
      -- `elif properties:` is true here; show the first key/value pair,
      -- unless the first key is falsy
      match o with
      | (k, v) :: _ =>
        if k ≠ "" then
          Except.ok (pyLower (k ++ ": " ++ pyTake (pyStr v) 15), "N/A", "N/A")
        else Except.ok ("N/A", "N/A", "N/A")
      | [] => Except.ok ("N/A", "N/A", "N/A")

/-- The `if properties:` block (lines 267–314).  A truthy non-dict state
payload is modelled as an immediate `TypeError`: in the script every such
value raises on its first `in` / subscript / attribute access before a
row can be finished. -/
def extractStateFields (device_type : String) (properties : Option JVal) :
    Except String StateFields :=
  match properties with
  | none => .ok defaultStateFields
  | some props =>
    if ¬ jtruthy props then .ok defaultStateFields
    else
      match props with
      | .jobj o => do
        let battery ← batteryField o
        let temp_value ← tempProbe o
        -- line 282: always formatted inside this block
        let temperature := format_temperature temp_value device_type
        let version := versionField o
        let (state_str, nomotion, sensitivity) ← stateSummary device_type o
        Except.ok ⟨battery, some temperature, version, state_str, nomotion, sensitivity⟩
      | _ => Except.error "TypeError: state payload is not a dict"

/-- The `if device_json_response:` block (lines 257–266): store the json
entry and extract `data.reportAt` into the last-contact string. -/
def reportStep (localOff : Int) (device_id device_name : String) (res : DevProps) :
    Except String (Option JsonEntry × String) :=
  match res.response with
  | some r =>
    if jtruthy r then do
      let dataV ← pyDictGet r "data" (.jobj [])
      let report_at ← pyDictGetOpt dataV "reportAt"
      let rt ←
        match report_at with
        | some ra =>
          if jtruthy ra then do
            let s ← pyAsStr ra "AttributeError: replace"
            Except.ok (format_report_time localOff s)
          else Except.ok (pyCenter "N/A" 19)
        | none => Except.ok (pyCenter "N/A" 19)
      Except.ok (some ⟨device_id, device_name, r⟩, rt)
    else Except.ok ((none : Option JsonEntry), pyCenter "N/A" 19)
  | none => Except.ok ((none : Option JsonEntry), pyCenter "N/A" 19)

/-- One iteration of the device loop (lines 239–320): returns the row
appended to `table_data`, the warnings printed to stderr, and the entry
appended to `json_responses` (if any).  `Except.error` is an uncaught
exception (which would kill the whole script). -/
def buildRow (localOff : Int) (d : Device) (outcome : FetchOutcome) :
    Except String (Row × List String × Option JsonEntry) := do
  let device_id := d.deviceId.getD "N/A"
  let device_name := d.name.getD "N/A"
  let device_type := d.type.getD "N/A"
  let device_token := d.token.getD ""
  let appeui := d.appEui.getD ""
  let model := get_model_from_appeui appeui
  if device_token = "" then
    -- `if device_token:` is false: all state-derived fields keep their
    -- defaults (lines 248–254) and no fetch happens
    Except.ok (⟨format_device_type device_type model, device_name, device_id, model,
          "N/A", format_temperature none device_type, pyCenter "N/A" 19,
          "N/A", "N/A", "N/A", .jstr "N/A"⟩, [], none)
  else do
    let res := get_device_properties device_id outcome
    -- json entry and reportAt extraction (lines 257–266)
    let (jsonEntry, report_time) ← reportStep localOff device_id device_name res
    -- state extraction (lines 267–314)
    let sf ← extractStateFields device_type res.properties
    -- line 316–318: default temperature formatting if the block did not run
    let temperature :=
      match sf.temperature with
      | some t => t
      | none => format_temperature none device_type
    Except.ok (⟨format_device_type device_type model, device_name, device_id, model,
          sf.battery, temperature, report_time, sf.nomotion, sf.sensitivity,
          sf.state_str, sf.version⟩, res.warnings, jsonEntry)

/-- The whole device loop, in catalog order: accumulated rows, stderr
warnings, and `json_responses`. -/
def processDevices (localOff : Int) :
    List (Device × FetchOutcome) → Except String (List Row × List String × List JsonEntry)
  | [] => .ok ([], [], [])
  | (d, oc) :: rest => do
    let (r, ws, je) ← buildRow localOff d oc
    let (rs, wss, jes) ← processDevices localOff rest
    Except.ok (r :: rs, ws ++ wss, je.toList ++ jes)

/-! ## Sorting (lines 334–341)

Python's `list.sort(key=...)` is a *stable* sort ordered by `<` on the
key tuples; it is modelled by `List.mergeSort` (Lean's stable sort) with
the boolean relation `a ≤ b ↔ ¬ key b < key a`, which is how a stable
sort driven by a strict weak order behaves. -/

/-- Python tuple `<` on string pairs (lexicographic). -/
def lt2 (a b : String × String) : Bool :=
  strLt a.1 b.1 || (a.1 = b.1 && strLt a.2 b.2)

/-- Python tuple `<` on string triples (lexicographic). -/
def lt3 (a b : String × String × String) : Bool :=
  strLt a.1 b.1 || (a.1 = b.1 && lt2 a.2 b.2)

/-- Default sort key (line 341): `(row[0], row[1])` = (type, name). -/
def rowKeyDefault (r : Row) : String × String := (r.type, r.name)

/-- Contact sort key (line 338): `(row[6].strip(), row[0], row[1])`. -/
def rowKeyContact (r : Row) : String × String × String :=
  (pyStrip r.lastContact, r.type, r.name)

/-- The comparator of the default sort. -/
def defaultLe (a b : Row) : Bool := !(lt2 (rowKeyDefault b) (rowKeyDefault a))

/-- The comparator of the `--sort-by-contact` sort. -/
def contactLe (a b : Row) : Bool := !(lt3 (rowKeyContact b) (rowKeyContact a))

/-- `table_data.sort(...)` for both sort policies. -/
def sortTable (sort_by_contact : Bool) (rows : List Row) : List Row :=
  if sort_by_contact then rows.mergeSort contactLe else rows.mergeSort defaultLe

/-! ## Rendering and the module-level flow (lines 85–361) -/

/-- Command-line flags. -/
structure Args where
  hide_device_id : Bool
  sort_by_contact : Bool
  json : Bool

/-- What the process emitted: stdout and stderr as lists of `print`
payloads, and the exit code. -/
structure ProcOutput where
  stdout : List String
  stderr : List String
  exitCode : Nat

/-- The unused module-level `headers` variable (line 234), kept verbatim:
note it has only 10 titles (no last-contact column) and is never read. -/
def headers : List String :=
  ["Type", "Name", "Device ID", "Model", "Battery", "Temp", "No motion delay",
   "Sensitivity", "State", "Version"]

/-- The column titles of the header actually printed (lines 323–331),
reassembled from its three wrapped lines, in printed order. -/
def headerTitles : List String :=
  ["Type", "Name", "Device ID", "Model", "Battery", "Temp", "Last radio contact",
   "No motion delay", "Sensitivity", "State", "Version"]

/-- `f"{v:^8}"` applied to the verbatim `version` cell: strings, ints and
floats format; a `bool` formats as its integer value; `None` and
containers raise `TypeError`. -/
def pyFormatCtr8 (v : JVal) : Except String String :=
  match v with
  | .jstr s => .ok (pyCenter s 8)
  | .jint n => .ok (pyCenter (toString n) 8)
  | .jfloat f => .ok (pyCenter (floatRepr f) 8)
  | .jbool b => .ok (pyCenter (if b then "1" else "0") 8)
  | _ => .error "TypeError: unsupported format string"

/-- One printed table row (lines 344–348). -/
def renderRow (hide : Bool) (r : Row) : Except String String := do
  let v ← pyFormatCtr8 r.version
  if hide then
    Except.ok (pyLJust r.type 20 ++ " " ++ pyLJust r.name 35 ++ " "
      ++ pyLJust r.model 10 ++ " " ++ pyRJust r.battery 8 ++ " " ++ pyRJust r.temp 7 ++ " "
      ++ pyCenter r.lastContact 19 ++ " " ++ pyCenter r.noMotionDelay 10 ++ " "
      ++ pyCenter r.sensitivity 11 ++ " " ++ pyCenter r.state 16 ++ " " ++ v)
  else
    Except.ok (pyLJust r.type 20 ++ " " ++ pyLJust r.name 35 ++ " "
      ++ pyLJust r.deviceId 18 ++ " "
      ++ pyLJust r.model 10 ++ " " ++ pyRJust r.battery 8 ++ " " ++ pyRJust r.temp 7 ++ " "
      ++ pyCenter r.lastContact 19 ++ " " ++ pyCenter r.noMotionDelay 10 ++ " "
      ++ pyCenter r.sensitivity 11 ++ " " ++ pyCenter r.state 16 ++ " " ++ v)

/-- The printed header: three title lines and the separator rule
(lines 323–332). -/
def headerLines (hide : Bool) : List String :=
  if hide then
    [pyLJust "Type" 20 ++ " " ++ pyLJust "Name" 35 ++ " " ++ pyLJust "Model" 10 ++ " "
       ++ pyRJust "Battery" 8 ++ " " ++ pyRJust "Temp" 7 ++ " " ++ pyCenter "Last" 19 ++ " "
       ++ pyCenter "No" 10 ++ " " ++ pyCenter "Sensitivity" 11 ++ " "
       ++ pyCenter "State" 16 ++ " " ++ pyCenter "Version" 8,
     pyLJust "" 20 ++ " " ++ pyLJust "" 35 ++ " " ++ pyLJust "" 10 ++ " "
       ++ pyLJust "" 8 ++ " " ++ pyLJust "" 7 ++ " " ++ pyCenter "radio" 19 ++ " "
       ++ pyCenter "motion" 10 ++ " " ++ pyLJust "" 11 ++ " " ++ pyLJust "" 16 ++ " "
       ++ pyLJust "" 8,
     pyLJust "" 20 ++ " " ++ pyLJust "" 35 ++ " " ++ pyLJust "" 10 ++ " "
       ++ pyLJust "" 8 ++ " " ++ pyLJust "" 7 ++ " " ++ pyCenter "contact" 19 ++ " "
       ++ pyCenter "delay" 10 ++ " " ++ pyLJust "" 11 ++ " " ++ pyLJust "" 16 ++ " "
       ++ pyLJust "" 8,
     String.mk (List.replicate 175 '-')]
  else
    [pyLJust "Type" 20 ++ " " ++ pyLJust "Name" 35 ++ " " ++ pyLJust "Device ID" 18 ++ " "
       ++ pyLJust "Model" 10 ++ " " ++ pyRJust "Battery" 8 ++ " " ++ pyRJust "Temp" 7 ++ " "
       ++ pyCenter "Last" 19 ++ " " ++ pyCenter "No" 10 ++ " " ++ pyCenter "Sensitivity" 11 ++ " "
       ++ pyCenter "State" 16 ++ " " ++ pyCenter "Version" 8,
     pyLJust "" 20 ++ " " ++ pyLJust "" 35 ++ " " ++ pyLJust "" 18 ++ " " ++ pyLJust "" 10 ++ " "
       ++ pyLJust "" 8 ++ " " ++ pyLJust "" 7 ++ " " ++ pyCenter "radio" 19 ++ " "
       ++ pyCenter "motion" 10 ++ " " ++ pyLJust "" 11 ++ " " ++ pyLJust "" 16 ++ " "
       ++ pyLJust "" 8,
     pyLJust "" 20 ++ " " ++ pyLJust "" 35 ++ " " ++ pyLJust "" 18 ++ " " ++ pyLJust "" 10 ++ " "
       ++ pyLJust "" 8 ++ " " ++ pyLJust "" 7 ++ " " ++ pyCenter "contact" 19 ++ " "
       ++ pyCenter "delay" 10 ++ " " ++ pyLJust "" 11 ++ " " ++ pyLJust "" 16 ++ " "
       ++ pyLJust "" 8,
     String.mk (List.replicate 193 '-')]

/-- Indent the continuation lines of a rendered value by one more level
(two spaces after every newline). -/
def reindent2 (s : String) : String :=
  String.mk (s.toList.foldr
    (fun c acc => if c = '\n' then '\n' :: ' ' :: ' ' :: acc else c :: acc) [])

mutual
/-- `json.dumps(v, indent=2)` (string escaping not modelled; hub payloads
need none).  Nested values are rendered at relative indent 0 and
re-indented, which matches the absolute-indentation output. -/
def jdumps : JVal → String
  | .jstr s => "\"" ++ s ++ "\""
  | .jint n => toString n
  | .jfloat v => floatRepr v
  | .jbool b => if b then "true" else "false"
  | .jnull => "null"
  | .jobj [] => "\x7b\x7d"
  | .jobj (kv :: rest) => "\x7b\n" ++ jdumpsObj (kv :: rest) ++ "\n\x7d"
  | .jarr [] => "[]"
  | .jarr (v :: rest) => "[\n" ++ jdumpsArr (v :: rest) ++ "\n]"

/-- the members of an object, one per line -/
def jdumpsObj : List (String × JVal) → String
  | [] => ""
  | [(k, v)] => "  \"" ++ k ++ "\": " ++ reindent2 (jdumps v)
  | (k, v) :: rest =>
    "  \"" ++ k ++ "\": " ++ reindent2 (jdumps v) ++ ",\n" ++ jdumpsObj rest

/-- the elements of an array, one per line -/
def jdumpsArr : List JVal → String
  | [] => ""
  | [v] => "  " ++ reindent2 (jdumps v)
  | v :: rest => "  " ++ reindent2 (jdumps v) ++ ",\n" ++ jdumpsArr rest
end

def eq80 : String := String.mk (List.replicate 80 '=')
def dash80 : String := String.mk (List.replicate 80 '-')

/-- The `--json` dump section (lines 351–359): printed only when the flag
is set and at least one response was stored. -/
def jsonSection (jsonFlag : Bool) (entries : List JsonEntry) : List String :=
  if jsonFlag && !entries.isEmpty then
    ("\n" ++ eq80) :: "JSON RESPONSES FOR EACH DEVICE" :: (eq80 ++ "\n") ::
      entries.foldr (fun e acc =>
        ("Device: " ++ e.name ++ " (" ++ e.deviceId ++ ")") :: dash80 ::
          jdumps e.response :: "" :: acc) []
  else []

/-- The banner printed before the catalog call (line 86). -/
def bannerLine (yolink_url : String) : String :=
  "Fetching device list from " ++ yolink_url ++ "/open/yolink/v2/api..."

/-- `any(keyword in desc.lower() for keyword in ['error','expired','invalid'])`. -/
def descKeywordHit (s : String) : Bool :=
  strContainsSub (pyLower s) "error" || strContainsSub (pyLower s) "expired"
    || strContainsSub (pyLower s) "invalid"

/-- A catalog entry converted to `Device`.  Model restriction: entries
must be objects whose present `deviceId`/`name`/`type`/`token`/`appEui`
values are strings (the hub schema). -/
def optStrField (o : List (String × JVal)) (k : String) : Option (Option String) :=
  match jget o k with
  | none => some none
  | some (.jstr s) => some (some s)
  | some _ => none

/-- See `optStrField`. -/
def deviceOfJVal : JVal → Option Device
  | .jobj o => do
    let i ← optStrField o "deviceId"
    let n ← optStrField o "name"
    let t ← optStrField o "type"
    let tok ← optStrField o "token"
    let ae ← optStrField o "appEui"
    some ⟨i, n, t, tok, ae⟩
  | _ => none

/-- The module-level flow from the banner print (line 86) to `sys.exit(0)`
(line 361), given the catalog call's outcome and an oracle assigning each
device's get-state call its outcome.  Environment-variable validation
(lines 73–83) happens before this and is not modelled. -/
def pyMain (localOff : Int) (yolink_url : String) (args : Args)
    (catalogOutcome : FetchOutcome) (oracle : Nat → FetchOutcome) :
    Except String ProcOutput :=
  let banner := bannerLine yolink_url
  match catalogOutcome with
  | .exc e => .ok ⟨[banner], ["Error: Failed to fetch devices: " ++ e], 1⟩
  | .ok data => do
    let code ← pyDictGet data "code" (.jstr "0")
    let desc ← pyDictGet data "desc" (.jstr "")
    if ¬ codeOk code then
      Except.ok ⟨[banner], ["Error: " ++ pyStr desc], 1⟩
    else do
      let descStr ← pyAsStr desc "AttributeError: lower"
      if descKeywordHit descStr then
        Except.ok ⟨[banner], ["Error: " ++ descStr], 1⟩
      else do
        let dataField ← pyDictGet data "data" (.jobj [])
        let devicesJ ← pyDictGet dataField "devices" (.jarr [])
        if ¬ jtruthy devicesJ then
          Except.ok ⟨[banner, "", "No devices found"], [], 0⟩
        else
          match devicesJ with
          | .jarr ds => do
            let devs ← ds.mapM fun dv =>
              match deviceOfJVal dv with
              | some d => Except.ok d
              | none => Except.error "model restriction: catalog entry shape"
            let items := devs.enum.map fun p => (p.2, oracle p.1)
            let (rows, warnings, jsons) ← processDevices localOff items
            let sorted := sortTable args.sort_by_contact rows
            let rowLines ← sorted.mapM (renderRow args.hide_device_id)
            Except.ok ⟨[banner, ""] ++ headerLines args.hide_device_id ++ rowLines
                        ++ jsonSection args.json jsons, warnings, 0⟩
          | _ => Except.error "TypeError: iterating a non-list devices value"

/-! ## Derived definitions used by the verification -/

/-- The row a device gets when every state-derived field keeps its
default (lines 248–254 plus the line 317 temperature default). -/
def defaultRow (d : Device) : Row :=
  let device_type := d.type.getD "N/A"
  let model := get_model_from_appeui (d.appEui.getD "")
  ⟨format_device_type device_type model, d.name.getD "N/A", d.deviceId.getD "N/A", model,
   "N/A", format_temperature none device_type, pyCenter "N/A" 19, "N/A", "N/A", "N/A",
   .jstr "N/A"⟩

/-- The fields of a row as the list appended to `table_data` (line 320),
in printed column order. -/
def rowFields (r : Row) : List JVal :=
  [.jstr r.type, .jstr r.name, .jstr r.deviceId, .jstr r.model, .jstr r.battery,
   .jstr r.temp, .jstr r.lastContact, .jstr r.noMotionDelay, .jstr r.sensitivity,
   .jstr r.state, r.version]

/-- A field that is a non-empty string. -/
def nonemptyStrField : JVal → Bool
  | .jstr s => s ≠ ""
  | _ => false

/-- Catalog-entry values that keep row fields non-empty: present
`name`/`deviceId`/`type` strings are non-empty. -/
def deviceWF (d : Device) : Prop :=
  d.name ≠ some "" ∧ d.deviceId ≠ some "" ∧ d.type ≠ some ""

/-- State-payload values that keep row fields non-empty strings: a
present `state`, `nomotionDelay` or `sensitivity` is not the empty
string, and a present `version` is a non-empty string. -/
def stateWF (o : List (String × JVal)) : Prop :=
  jget o "state" ≠ some (.jstr "") ∧
  (∀ v, jget o "version" = some v → ∃ s, v = .jstr s ∧ s ≠ "") ∧
  jget o "nomotionDelay" ≠ some (.jstr "") ∧
  jget o "sensitivity" ≠ some (.jstr "")

/-- A sample row used to witness sort stability. -/
def wRowA : Row :=
  ⟨"Door sensor", "Front", "id1", "YS7804-UC", "75%", "  N/A  ", pyCenter "N/A" 19,
   "N/A", "N/A", "open", .jstr "0806"⟩

/-- A second sample row with the same sort keys as `wRowA`. -/
def wRowB : Row := { wRowA with deviceId := "id2", state := "closed" }

/-- An envelope whose `code` is a success code while its `desc` contains
the keyword "invalid". -/
def inconsistentEnv : JVal :=
  .jobj [("code", .jstr "000000"), ("desc", .jstr "invalid token"),
         ("data", .jobj [("state", .jobj [("battery", .jint 4)])])]

/-- A successful catalog envelope with an empty device list. -/
def emptyDevicesEnv : JVal :=
  .jobj [("code", .jstr "0"), ("desc", .jstr "Success"),
         ("data", .jobj [("devices", .jarr [])])]


/-- month/day ranges preserved by the calendar stepping. -/
def ValidMD (x : Int × Nat × Nat) : Prop :=
  1 ≤ x.2.1 ∧ x.2.1 ≤ 12 ∧ 1 ≤ x.2.2 ∧ x.2.2 ≤ 31

/-! Order facts for the comparators. -/

theorem char_toNat_inj {a b : Char} (h : a.toNat = b.toNat) : a = b := by
  have h2 := congrArg Char.ofNat h
  rwa [Char.ofNat_toNat, Char.ofNat_toNat] at h2

theorem clistLt_asymm : ∀ a b : List Char, clistLt a b = true → clistLt b a = false := by
  intro a
  induction a with
  | nil => intro b; cases b <;> simp [clistLt]
  | cons x xs ih =>
    intro b
    cases b with
    | nil => simp [clistLt]
    | cons y ys =>
      by_cases h1 : x.toNat < y.toNat
      · have h2 : ¬ y.toNat < x.toNat := by omega
        simp [clistLt, h1, h2]
      · by_cases h2 : y.toNat < x.toNat
        · simp [clistLt, h1, h2]
        · simp only [clistLt, h1, h2, if_false]
          exact ih ys

theorem clistLt_trans :
    ∀ a b c : List Char, clistLt a b = true → clistLt b c = true → clistLt a c = true := by
  intro a
  induction a with
  | nil =>
    intro b c hab hbc
    cases b with
    | nil => simp [clistLt] at hab
    | cons y ys =>
      cases c with
      | nil => simp [clistLt] at hbc
      | cons z zs => simp [clistLt]
  | cons x xs ih =>
    intro b c hab hbc
    cases b with
    | nil => simp [clistLt] at hab
    | cons y ys =>
      cases c with
      | nil => simp [clistLt] at hbc
      | cons z zs =>
        simp only [clistLt] at hab hbc ⊢
        by_cases h1 : x.toNat < y.toNat
        · by_cases h2 : y.toNat < z.toNat
          · have h3 : x.toNat < z.toNat := by omega
            simp [h3]
          · by_cases h2' : z.toNat < y.toNat
            · simp [h2, h2'] at hbc
            · have h3 : x.toNat < z.toNat := by omega
              simp [h3]
        · by_cases h1' : y.toNat < x.toNat
          · simp [h1, h1'] at hab
          · simp only [h1, h1', if_false] at hab
            by_cases h2 : y.toNat < z.toNat
            · have h3 : x.toNat < z.toNat := by omega
              simp [h3]
            · by_cases h2' : z.toNat < y.toNat
              · simp [h2, h2'] at hbc
              · simp only [h2, h2', if_false] at hbc
                have h3 : ¬ x.toNat < z.toNat := by omega
                have h3' : ¬ z.toNat < x.toNat := by omega
                simp only [h3, h3', if_false]
                exact ih ys zs hab hbc

theorem clistLt_connex :
    ∀ a b : List Char, clistLt a b = false → clistLt b a = false → a = b := by
  intro a
  induction a with
  | nil =>
    intro b hab _
    cases b with
    | nil => rfl
    | cons y ys => simp [clistLt] at hab
  | cons x xs ih =>
    intro b hab hba
    cases b with
    | nil => simp [clistLt] at hba
    | cons y ys =>
      by_cases h1 : x.toNat < y.toNat
      · simp [clistLt, h1] at hab
      · by_cases h2 : y.toNat < x.toNat
        · simp [clistLt, h1, h2] at hba
        · simp only [clistLt, h1, h2, if_false] at hab hba
          have hx : x = y := char_toNat_inj (by omega)
          rw [hx, ih ys hab hba]

theorem strLt_asymm (a b : String) (h : strLt a b = true) : strLt b a = false :=
  clistLt_asymm a.toList b.toList h

theorem strLt_trans (a b c : String) (h1 : strLt a b = true) (h2 : strLt b c = true) :
    strLt a c = true :=
  clistLt_trans a.toList b.toList c.toList h1 h2

theorem strLt_connex (a b : String) (h1 : strLt a b = false) (h2 : strLt b a = false) :
    a = b :=
  String.ext (clistLt_connex a.toList b.toList h1 h2)

theorem clistLt_irrefl : ∀ a : List Char, clistLt a a = false := by
  intro a
  induction a with
  | nil => rfl
  | cons x xs ih => simp [clistLt, ih]

theorem strLt_irrefl (a : String) : strLt a a = false := clistLt_irrefl a.toList

theorem lt2_asymm (a b : String × String) (h : lt2 a b = true) : lt2 b a = false := by
  rcases a with ⟨a1, a2⟩; rcases b with ⟨b1, b2⟩
  simp only [lt2, Bool.or_eq_true, Bool.and_eq_true, decide_eq_true_eq] at h
  simp only [lt2, Bool.or_eq_false_iff, Bool.and_eq_false_iff, decide_eq_false_iff_not]
  rcases h with h | ⟨he, h⟩
  · refine ⟨strLt_asymm _ _ h, Or.inl fun e => ?_⟩
    rw [e] at h
    rw [strLt_irrefl a1] at h
    cases h
  · subst he
    exact ⟨strLt_irrefl a1, Or.inr (strLt_asymm _ _ h)⟩

theorem lt2_trans (a b c : String × String) (h1 : lt2 a b = true) (h2 : lt2 b c = true) :
    lt2 a c = true := by
  rcases a with ⟨a1, a2⟩; rcases b with ⟨b1, b2⟩; rcases c with ⟨c1, c2⟩
  simp only [lt2, Bool.or_eq_true, Bool.and_eq_true, decide_eq_true_eq] at h1 h2 ⊢
  rcases h1 with h1 | ⟨e1, h1⟩ <;> rcases h2 with h2 | ⟨e2, h2⟩
  · exact Or.inl (strLt_trans _ _ _ h1 h2)
  · subst e2; exact Or.inl h1
  · subst e1; exact Or.inl h2
  · subst e1; subst e2; exact Or.inr ⟨rfl, strLt_trans _ _ _ h1 h2⟩

theorem lt2_connex (a b : String × String) (h1 : lt2 a b = false) (h2 : lt2 b a = false) :
    a = b := by
  rcases a with ⟨a1, a2⟩; rcases b with ⟨b1, b2⟩
  simp only [lt2, Bool.or_eq_false_iff, Bool.and_eq_false_iff, decide_eq_false_iff_not] at h1 h2
  obtain ⟨hl1, hr1⟩ := h1
  obtain ⟨hl2, hr2⟩ := h2
  have e1 : a1 = b1 := strLt_connex _ _ hl1 hl2
  subst e1
  rcases hr1 with h | h
  · simp at h
  · rcases hr2 with h' | h'
    · simp at h'
    · rw [strLt_connex _ _ h h']

theorem lt3_asymm (a b : String × String × String) (h : lt3 a b = true) : lt3 b a = false := by
  rcases a with ⟨a1, a2⟩; rcases b with ⟨b1, b2⟩
  simp only [lt3, Bool.or_eq_true, Bool.and_eq_true, decide_eq_true_eq] at h
  simp only [lt3, Bool.or_eq_false_iff, Bool.and_eq_false_iff, decide_eq_false_iff_not]
  rcases h with h | ⟨he, h⟩
  · refine ⟨strLt_asymm _ _ h, Or.inl fun e => ?_⟩
    rw [e] at h
    rw [strLt_irrefl a1] at h
    cases h
  · subst he
    exact ⟨strLt_irrefl a1, Or.inr (lt2_asymm _ _ h)⟩

theorem lt3_trans (a b c : String × String × String) (h1 : lt3 a b = true)
    (h2 : lt3 b c = true) : lt3 a c = true := by
  rcases a with ⟨a1, a2⟩; rcases b with ⟨b1, b2⟩; rcases c with ⟨c1, c2⟩
  simp only [lt3, Bool.or_eq_true, Bool.and_eq_true, decide_eq_true_eq] at h1 h2 ⊢
  rcases h1 with h1 | ⟨e1, h1⟩ <;> rcases h2 with h2 | ⟨e2, h2⟩
  · exact Or.inl (strLt_trans _ _ _ h1 h2)
  · subst e2; exact Or.inl h1
  · subst e1; exact Or.inl h2
  · subst e1; subst e2; exact Or.inr ⟨rfl, lt2_trans _ _ _ h1 h2⟩

theorem lt3_connex (a b : String × String × String) (h1 : lt3 a b = false)
    (h2 : lt3 b a = false) : a = b := by
  rcases a with ⟨a1, a2⟩; rcases b with ⟨b1, b2⟩
  simp only [lt3, Bool.or_eq_false_iff, Bool.and_eq_false_iff, decide_eq_false_iff_not] at h1 h2
  obtain ⟨hl1, hr1⟩ := h1
  obtain ⟨hl2, hr2⟩ := h2
  have e1 : a1 = b1 := strLt_connex _ _ hl1 hl2
  subst e1
  rcases hr1 with h | h
  · simp at h
  · rcases hr2 with h' | h'
    · simp at h'
    · rw [lt2_connex _ _ h h']

theorem defaultLe_total (a b : Row) : (defaultLe a b || defaultLe b a) = true := by
  simp only [defaultLe, Bool.or_eq_true, Bool.not_eq_true']
  by_cases h : lt2 (rowKeyDefault b) (rowKeyDefault a) = true
  · exact Or.inr (lt2_asymm _ _ h)
  · exact Or.inl (by simpa using h)

theorem defaultLe_trans (a b c : Row) (h1 : defaultLe a b = true) (h2 : defaultLe b c = true) :
    defaultLe a c = true := by
  simp only [defaultLe, Bool.not_eq_true'] at h1 h2 ⊢
  by_cases h : lt2 (rowKeyDefault c) (rowKeyDefault a) = true
  · by_cases hbc : lt2 (rowKeyDefault b) (rowKeyDefault c) = true
    · have := lt2_trans _ _ _ hbc h
      rw [this] at h1; cases h1
    · have he := lt2_connex _ _ (by simpa using hbc) h2
      rw [he] at h1; rw [h1] at h; cases h
  · simpa using h

theorem contactLe_total (a b : Row) : (contactLe a b || contactLe b a) = true := by
  simp only [contactLe, Bool.or_eq_true, Bool.not_eq_true']
  by_cases h : lt3 (rowKeyContact b) (rowKeyContact a) = true
  · exact Or.inr (lt3_asymm _ _ h)
  · exact Or.inl (by simpa using h)

theorem contactLe_trans (a b c : Row) (h1 : contactLe a b = true) (h2 : contactLe b c = true) :
    contactLe a c = true := by
  simp only [contactLe, Bool.not_eq_true'] at h1 h2 ⊢
  by_cases h : lt3 (rowKeyContact c) (rowKeyContact a) = true
  · by_cases hbc : lt3 (rowKeyContact b) (rowKeyContact c) = true
    · have := lt3_trans _ _ _ hbc h
      rw [this] at h1; cases h1
    · have he := lt3_connex _ _ (by simpa using hbc) h2
      rw [he] at h1; rw [h1] at h; cases h
  · simpa using h

/-! ## Claim theorems -/

/-- C1 (code bug): the temperature formatter's docstring (and the spec)
promise a 7-character result, and `None` indeed renders as `"N/A"`
centered in 7 characters, but the f-string widths are only minimums: on
`format_temperature(100000.0, 'THSensor')` the code returns
`"100000.0C"`, a 9-character string, violating the fixed-width claim. -/
theorem C1_temperature_seven_char_contract :
    format_temperature none "THSensor" = pyCenter "N/A" 7 ∧
    pyCenter "N/A" 7 = "  N/A  " ∧
    format_temperature (some ⟨100000, 1⟩) "THSensor" = "100000.0C" ∧
    (format_temperature (some ⟨100000, 1⟩) "THSensor").length = 9 := by
  exact ⟨rfl, rfl, rfl, rfl⟩

/-- C5: model extraction from the appEui.  Any identifier of length at
least 10 yields `"YS" ++ (characters 6..10) ++ "-UC"` — in particular
`"d88b4c7804000000" ↦ "YS7804-UC"` — while an identifier shorter than 10
characters, or an absent one (the loop then passes `""`), yields
`"N/A"`. -/
theorem C5_model_extraction :
    (∀ s : String, 10 ≤ s.length →
        get_model_from_appeui s = "YS" ++ String.mk ((s.toList.drop 6).take 4) ++ "-UC") ∧
    get_model_from_appeui "d88b4c7804000000" = "YS7804-UC" ∧
    (∀ s : String, s.length < 10 → get_model_from_appeui s = "N/A") ∧
    (∀ d : Device, d.appEui = none → get_model_from_appeui (d.appEui.getD "") = "N/A") := by
  refine ⟨?_, by decide, ?_, ?_⟩
  · intro s h
    have hne : s ≠ "" := by
      intro e
      rw [e] at h
      simp at h
    rw [get_model_from_appeui, if_pos ⟨hne, h⟩]
  · intro s h
    rw [get_model_from_appeui, if_neg]
    rintro ⟨-, h10⟩
    omega
  · intro d h
    rw [h]
    rfl

/-- C5 witness. -/
theorem C5_model_extraction_witness :
    get_model_from_appeui "d88b4c7804000000" =
      "YS" ++ String.mk (("d88b4c7804000000".toList.drop 6).take 4) ++ "-UC" ∧
    get_model_from_appeui "short" = "N/A" ∧
    get_model_from_appeui ((Device.mk none none none none none).appEui.getD "") = "N/A" :=
  ⟨C5_model_extraction.1 "d88b4c7804000000" (by decide),
   C5_model_extraction.2.2.1 "short" (by decide),
   C5_model_extraction.2.2.2 (Device.mk none none none none none) rfl⟩

/-- C4: the battery field.  The script computes `int(battery / 4 * 100)`
and suffixes `"%"`; for every integer level `b` — inside `[0, 4]` or
outside, with no clamping — the truncation coincides with Python's
`round(b / 4 * 100)`, so the rendered field is exactly the claim's
formula; an absent `battery` key leaves the `"N/A"` default. -/
theorem C4_battery_formula (o : List (String × JVal)) (b : Int) :
    (jget o "battery" = some (.jint b) →
      batteryField o =
        .ok (toString (PyNum.round (((PyNum.ofInt b).div (PyNum.ofInt 4)).mul
          (PyNum.ofInt 100))) ++ "%")) ∧
    (jget o "battery" = none → batteryField o = .ok "N/A") := by
  constructor
  · intro hb
    have hval : (((PyNum.ofInt b).div (PyNum.ofInt 4)).mul (PyNum.ofInt 100)).trunc =
        PyNum.round (((PyNum.ofInt b).div (PyNum.ofInt 4)).mul (PyNum.ofInt 100)) := by
      simp only [PyNum.ofInt, PyNum.div, PyNum.mul, PyNum.trunc, PyNum.round]
      norm_num
      rw [show b * 100 = b * 25 * 4 by ring]
      rw [Int.mul_tdiv_cancel _ (by norm_num)]
      rw [roundHalfEven]
      rw [Int.fmod_eq_emod _ (by norm_num), Int.mul_emod_left]
      rw [show Int.fdiv (b * 25 * 4) 4 = (b * 25 * 4) / 4 from Int.fdiv_eq_ediv _ (by norm_num)]
      rw [Int.mul_ediv_cancel _ (by norm_num)]
      norm_num
    simp only [batteryField, hb, pyToNum, bind, Except.bind, hval]
  · intro hb
    simp only [batteryField, hb]

/-- C4 witness: a battery level of 3 renders as `"75%"`. -/
theorem C4_battery_formula_witness :
    batteryField [("battery", .jint 3)] = .ok "75%" := by
  have h := (C4_battery_formula [("battery", .jint 3)] 3).1 rfl
  rw [h]
  rfl

/-- C2 counterexample: for the envelope `inconsistentEnv` (success code
`"000000"`, desc `"invalid token"`), the catalog path fails with exit
code 1, but `get_device_properties` treats the very same envelope as a
success and returns its state — so the desc keyword check does not hold
for the per-device get-state calls. -/
theorem C2_desc_check_counterexample :
    pyMain 0 "https://h" ⟨false, false, false⟩ (.ok inconsistentEnv) (fun _ => .exc "") =
      .ok ⟨[bannerLine "https://h"], ["Error: invalid token"], 1⟩ ∧
    get_device_properties "d1" (.ok inconsistentEnv) =
      ⟨some (.jobj [("battery", .jint 4)]), some inconsistentEnv, []⟩ :=
  ⟨rfl, rfl⟩

/-- C2 (amended): the desc keyword check applies to the catalog call
only.  A catalog envelope whose `desc` is a string containing "error",
"expired" or "invalid" (case-insensitive) is rejected with exit code 1
even when `code` is a success code; a per-device get-state envelope with
a success code is accepted — state extracted, no warning — regardless of
its `desc`. -/
theorem C2_desc_check_catalog_only :
    (∀ (localOff : Int) (url : String) (args : Args) (oracle : Nat → FetchOutcome)
       (o : List (String × JVal)) (s : String),
       codeOk ((jget o "code").getD (.jstr "0")) = true →
       (jget o "desc").getD (.jstr "") = .jstr s →
       descKeywordHit s = true →
       pyMain localOff url args (.ok (.jobj o)) oracle =
         .ok ⟨[bannerLine url], ["Error: " ++ s], 1⟩) ∧
    (∀ (did : String) (o od : List (String × JVal)) (stv : JVal),
       codeOk ((jget o "code").getD (.jstr "0")) = true →
       jget o "data" = some (.jobj od) →
       jget od "state" = some stv →
       get_device_properties did (.ok (.jobj o)) = ⟨some stv, some (.jobj o), []⟩) := by
  constructor
  · intro localOff url args oracle o s hc hdesc hkw
    simp only [pyMain, pyDictGet, bind, Except.bind, hc, hdesc, hkw, pyAsStr,
      Bool.not_eq_true, ite_false, ite_true]
    simp
  · intro did o od stv hc hdata hstate
    simp only [get_device_properties, getStateBody, pyDictGet, bind, Except.bind]
    rw [hc]
    simp [hdata, hstate]

/-- C2 witness. -/
theorem C2_desc_check_catalog_only_witness :
    pyMain 0 "https://hub" ⟨false, false, true⟩
        (.ok (.jobj [("code", .jstr "0"), ("desc", .jstr "Session EXPIRED")]))
        (fun _ => .exc "") =
      .ok ⟨[bannerLine "https://hub"], ["Error: Session EXPIRED"], 1⟩ ∧
    get_device_properties "dev7"
        (.ok (.jobj [("code", .jstr "0"), ("desc", .jstr "Session EXPIRED"),
          ("data", .jobj [("state", .jobj [("door", .jstr "open")])])])) =
      ⟨some (.jobj [("door", .jstr "open")]),
       some (.jobj [("code", .jstr "0"), ("desc", .jstr "Session EXPIRED"),
         ("data", .jobj [("state", .jobj [("door", .jstr "open")])])]), []⟩ :=
  ⟨C2_desc_check_catalog_only.1 0 "https://hub" ⟨false, false, true⟩ (fun _ => .exc "")
      [("code", .jstr "0"), ("desc", .jstr "Session EXPIRED")] "Session EXPIRED"
      (by decide) rfl (by decide),
   C2_desc_check_catalog_only.2 "dev7"
      [("code", .jstr "0"), ("desc", .jstr "Session EXPIRED"),
       ("data", .jobj [("state", .jobj [("door", .jstr "open")])])]
      [("state", .jobj [("door", .jstr "open")])] (.jobj [("door", .jstr "open")])
      (by decide) rfl rfl⟩

/-- C7 counterexample: with an empty device list the script's stdout is
the fetch banner, a blank line and `"No devices found"` — not the single
line `"No devices found"` the claim states (the banner and the blank
line also go to stdout). -/
theorem C7_no_devices_counterexample :
    pyMain 0 "https://h" ⟨false, false, false⟩ (.ok emptyDevicesEnv) (fun _ => .exc "") =
      .ok ⟨[bannerLine "https://h", "", "No devices found"], [], 0⟩ ∧
    [bannerLine "https://h", "", "No devices found"] ≠ ["No devices found"] :=
  ⟨rfl, by decide⟩

/-- C7 (amended): when the catalog call succeeds and the device list is
empty, missing, or otherwise falsy, stdout consists of the fetch banner,
one empty line, and exactly `"No devices found"` — no table header, no
rows — stderr is empty and the exit code is 0. -/
theorem C7_no_devices_output :
    ∀ (localOff : Int) (url : String) (args : Args) (oracle : Nat → FetchOutcome)
      (o od : List (String × JVal)) (s : String),
      codeOk ((jget o "code").getD (.jstr "0")) = true →
      (jget o "desc").getD (.jstr "") = .jstr s →
      descKeywordHit s = false →
      (jget o "data").getD (.jobj []) = .jobj od →
      jtruthy ((jget od "devices").getD (.jarr [])) = false →
      pyMain localOff url args (.ok (.jobj o)) oracle =
        .ok ⟨[bannerLine url, "", "No devices found"], [], 0⟩ := by
  intro localOff url args oracle o od s hc hdesc hkw hdata hdev
  simp only [pyMain, pyDictGet, bind, Except.bind, hc, hdesc, hkw, hdata, hdev, pyAsStr]
  simp

/-- C7 witness. -/
theorem C7_no_devices_output_witness :
    pyMain 60 "https://hub2" ⟨true, true, true⟩
        (.ok (.jobj [("code", .jstr "000000"), ("desc", .jstr "OK"),
          ("data", .jobj [("other", .jint 1)])]))
        (fun _ => .exc "") =
      .ok ⟨[bannerLine "https://hub2", "", "No devices found"], [], 0⟩ :=
  C7_no_devices_output 60 "https://hub2" ⟨true, true, true⟩ (fun _ => .exc "")
    [("code", .jstr "000000"), ("desc", .jstr "OK"), ("data", .jobj [("other", .jint 1)])]
    [("other", .jint 1)] "OK" (by decide) rfl (by decide) rfl (by decide)

/-- C10: a per-device get-state envelope with a non-success code is still
retained: the full response is appended to `json_responses` (and hence
rendered in the `--json` dump section), its `data.reportAt` (when present
and non-empty) populates the last-contact column, and every other
state-derived field keeps its `"N/A"` default; without a `reportAt` the
row is exactly the all-default row, with the response still retained. -/
theorem C10_failed_envelope_retained :
    (∀ (localOff : Int) (d : Device) (o od : List (String × JVal)) (ra : String),
      d.token.getD "" ≠ "" →
      o ≠ [] →
      codeOk ((jget o "code").getD (.jstr "0")) = false →
      jget o "data" = some (.jobj od) →
      jget od "reportAt" = some (.jstr ra) →
      ra ≠ "" →
      buildRow localOff d (.ok (.jobj o)) =
        .ok ({ defaultRow d with lastContact := format_report_time localOff ra },
             [], some ⟨d.deviceId.getD "N/A", d.name.getD "N/A", .jobj o⟩)) ∧
    (∀ (localOff : Int) (d : Device) (o od : List (String × JVal)),
      d.token.getD "" ≠ "" →
      o ≠ [] →
      codeOk ((jget o "code").getD (.jstr "0")) = false →
      jget o "data" = some (.jobj od) →
      jget od "reportAt" = none →
      buildRow localOff d (.ok (.jobj o)) =
        .ok (defaultRow d, [], some ⟨d.deviceId.getD "N/A", d.name.getD "N/A", .jobj o⟩)) ∧
    (∀ (es : List JsonEntry) (e : JsonEntry), e ∈ es →
      ("Device: " ++ e.name ++ " (" ++ e.deviceId ++ ")") ∈ jsonSection true es ∧
      jdumps e.response ∈ jsonSection true es) := by
  refine ⟨?_, ?_, ?_⟩
  · intro localOff d o od ra htok hne hcode hdata hra hras
    have hempty : o.isEmpty = false := by
      cases o with
      | nil => exact absurd rfl hne
      | cons x xs => rfl
    simp only [buildRow, get_device_properties, getStateBody, reportStep, pyDictGet,
      pyDictGetOpt, pyAsStr, bind, Except.bind, hcode, hdata, hra, Bool.false_eq_true,
      ite_false]
    rw [if_neg htok]
    simp [jtruthy, hempty, hras, hra, extractStateFields, defaultStateFields, defaultRow]
  · intro localOff d o od htok hne hcode hdata hra
    have hempty : o.isEmpty = false := by
      cases o with
      | nil => exact absurd rfl hne
      | cons x xs => rfl
    simp only [buildRow, get_device_properties, getStateBody, reportStep, pyDictGet,
      pyDictGetOpt, pyAsStr, bind, Except.bind, hcode, hdata, hra, Bool.false_eq_true,
      ite_false]
    rw [if_neg htok]
    simp [jtruthy, hempty, hra, extractStateFields, defaultStateFields, defaultRow]
  · intro es e he
    have aux : ∀ (es' : List JsonEntry), e ∈ es' → ∀ tl : List String,
        ("Device: " ++ e.name ++ " (" ++ e.deviceId ++ ")") ∈
          es'.foldr (fun x acc =>
            ("Device: " ++ x.name ++ " (" ++ x.deviceId ++ ")") :: dash80 ::
              jdumps x.response :: "" :: acc) tl ∧
        jdumps e.response ∈
          es'.foldr (fun x acc =>
            ("Device: " ++ x.name ++ " (" ++ x.deviceId ++ ")") :: dash80 ::
              jdumps x.response :: "" :: acc) tl := by
      intro es'
      induction es' with
      | nil => intro h; cases h
      | cons hd tl2 ih =>
        intro h tl
        rcases List.mem_cons.mp h with he' | he'
        · subst he'
          exact ⟨List.mem_cons_self _ _,
            List.mem_cons_of_mem _ (List.mem_cons_of_mem _ (List.mem_cons_self _ _))⟩
        · obtain ⟨h1, h2⟩ := ih he' tl
          exact ⟨List.mem_cons_of_mem _ (List.mem_cons_of_mem _ (List.mem_cons_of_mem _
                  (List.mem_cons_of_mem _ h1))),
                 List.mem_cons_of_mem _ (List.mem_cons_of_mem _ (List.mem_cons_of_mem _
                  (List.mem_cons_of_mem _ h2)))⟩
    have hnonempty : es.isEmpty = false := by
      cases es with
      | nil => cases he
      | cons hd tl => rfl
    obtain ⟨h1, h2⟩ := aux es he []
    rw [jsonSection, if_pos (by simp [hnonempty])]
    exact ⟨List.mem_cons_of_mem _ (List.mem_cons_of_mem _ (List.mem_cons_of_mem _ h1)),
           List.mem_cons_of_mem _ (List.mem_cons_of_mem _ (List.mem_cons_of_mem _ h2))⟩

/-- C10 witness. -/
theorem C10_failed_envelope_retained_witness :
    buildRow (-480) ⟨some "d2", some "Shed", some "DoorSensor", some "tok", none⟩
        (.ok (.jobj [("code", .jstr "020104"), ("desc", .jstr "cannot connect"),
          ("data", .jobj [("reportAt", .jstr "2025-12-09T08:54:34.042Z")])])) =
      .ok ({ defaultRow ⟨some "d2", some "Shed", some "DoorSensor", some "tok", none⟩ with
               lastContact := format_report_time (-480) "2025-12-09T08:54:34.042Z" },
           [], some ⟨"d2", "Shed",
             .jobj [("code", .jstr "020104"), ("desc", .jstr "cannot connect"),
               ("data", .jobj [("reportAt", .jstr "2025-12-09T08:54:34.042Z")])]⟩) ∧
    "Device: Shed (d2)" ∈ jsonSection true [⟨"d2", "Shed", .jnull⟩] :=
  ⟨C10_failed_envelope_retained.1 (-480)
      ⟨some "d2", some "Shed", some "DoorSensor", some "tok", none⟩
      [("code", .jstr "020104"), ("desc", .jstr "cannot connect"),
       ("data", .jobj [("reportAt", .jstr "2025-12-09T08:54:34.042Z")])]
      [("reportAt", .jstr "2025-12-09T08:54:34.042Z")] "2025-12-09T08:54:34.042Z"
      (by decide) (List.cons_ne_nil _ _) (by decide) rfl rfl (by decide),
   (C10_failed_envelope_retained.2.2 [⟨"d2", "Shed", .jnull⟩] ⟨"d2", "Shed", .jnull⟩
      (List.mem_cons_self _ _)).1⟩

/-- When the envelope processing of `get_device_properties` succeeds, the
returned full response is the parsed body. -/
theorem getStateBody_ok_response (result : JVal) (p : Option JVal × Option JVal)
    (h : getStateBody result = .ok p) : p.2 = some result := by
  rw [getStateBody] at h
  cases hpg : pyDictGet result "code" (.jstr "0") with
  | error e => simp only [bind, Except.bind, hpg] at h; simp at h
  | ok code =>
    simp only [bind, Except.bind, hpg] at h
    by_cases hco : codeOk code = true
    · rw [if_pos hco] at h
      cases hpd : pyDictGet result "data" (.jobj []) with
      | error e => simp only [hpd] at h; simp at h
      | ok dataV =>
        simp only [hpd] at h
        cases hps : pyDictGet dataV "state" (.jobj []) with
        | error e => simp only [hps] at h; simp at h
        | ok st =>
          simp only [hps] at h
          simp only [Except.ok.injEq] at h
          rw [← h]
    · rw [if_neg hco] at h
      simp only [Except.ok.injEq] at h
      rw [← h]

/-- C3: per-device failure isolation.  Whenever `get_device_properties`
swallows an exception (transport failure or an envelope whose processing
raises) it returns `(None, None)` and a non-empty warning list (printed
to the diagnostic stderr stream), and the device still gets the
all-default row; a device with an empty token skips the fetch entirely
and gets the all-default row with no warning; and the loop never aborts:
as long as each iteration raises no uncaught exception, there is exactly
one row per catalog device. -/
theorem C3_per_device_failure_isolation :
    (∀ (localOff : Int) (d : Device) (oc : FetchOutcome),
      d.token.getD "" ≠ "" →
      (get_device_properties (d.deviceId.getD "N/A") oc).properties = none →
      (get_device_properties (d.deviceId.getD "N/A") oc).response = none →
      buildRow localOff d oc =
        .ok (defaultRow d, (get_device_properties (d.deviceId.getD "N/A") oc).warnings,
          none) ∧
      (get_device_properties (d.deviceId.getD "N/A") oc).warnings ≠ []) ∧
    (∀ (localOff : Int) (d : Device) (oc : FetchOutcome),
      d.token.getD "" = "" →
      buildRow localOff d oc = .ok (defaultRow d, [], none)) ∧
    (∀ (localOff : Int) (items : List (Device × FetchOutcome)),
      (∀ x ∈ items, ∃ out, buildRow localOff x.1 x.2 = Except.ok out) →
      ∃ rows ws js, processDevices localOff items = .ok (rows, ws, js) ∧
        rows.length = items.length) := by
  refine ⟨?_, ?_, ?_⟩
  · intro localOff d oc htok hprops hresp
    rcases hgp : get_device_properties (d.deviceId.getD "N/A") oc with ⟨p, r, w⟩
    rw [hgp] at hprops hresp
    simp only at hprops hresp
    subst hprops
    subst hresp
    constructor
    · simp only [buildRow, bind, Except.bind]
      rw [if_neg htok, hgp]
      simp [reportStep, extractStateFields, defaultStateFields, defaultRow]
    · cases oc with
      | exc e =>
        simp only [get_device_properties, DevProps.mk.injEq] at hgp
        rw [← hgp.2.2]
        simp [warnFetch]
      | ok result =>
        simp only [get_device_properties] at hgp
        cases hbody : getStateBody result with
        | ok pr =>
          have hr := getStateBody_ok_response result pr hbody
          rcases pr with ⟨p1, r1⟩
          simp only [hbody, DevProps.mk.injEq] at hgp
          rw [hgp.2.1] at hr
          cases hr
        | error e =>
          simp only [hbody, DevProps.mk.injEq] at hgp
          rw [← hgp.2.2]
          simp [warnFetch]
  · intro localOff d oc htok
    simp only [buildRow]
    rw [if_pos htok]
    simp [defaultRow]
  · intro localOff items hall
    induction items with
    | nil => exact ⟨[], [], [], rfl, rfl⟩
    | cons x xs ih =>
      obtain ⟨out, hout⟩ := hall x (List.mem_cons_self _ _)
      obtain ⟨rows, ws, js, hrec, hlen⟩ := ih fun y hy => hall y (List.mem_cons_of_mem _ hy)
      refine ⟨out.1 :: rows, out.2.1 ++ ws, out.2.2.toList ++ js, ?_, by simp [hlen]⟩
      simp only [processDevices, bind, Except.bind, hout, hrec]

/-- C3 witness. -/
theorem C3_per_device_failure_isolation_witness :
    (buildRow 120 ⟨some "dA", some "Attic", some "THSensor", some "tokA", none⟩
        (.exc "Connection timed out") =
      .ok (defaultRow ⟨some "dA", some "Attic", some "THSensor", some "tokA", none⟩,
        (get_device_properties "dA" (.exc "Connection timed out")).warnings, none) ∧
      (get_device_properties "dA" (.exc "Connection timed out")).warnings ≠ []) ∧
    buildRow 0 ⟨some "dB", some "Basement", some "LeakSensor", none, none⟩ (.ok .jnull) =
      .ok (defaultRow ⟨some "dB", some "Basement", some "LeakSensor", none, none⟩,
        [], none) ∧
    ∃ rows ws js,
      processDevices 0
          [(⟨some "dA", some "Attic", some "THSensor", some "tokA", none⟩, .exc "x")] =
        .ok (rows, ws, js) ∧ rows.length = 1 :=
  ⟨C3_per_device_failure_isolation.1 120
      ⟨some "dA", some "Attic", some "THSensor", some "tokA", none⟩
      (.exc "Connection timed out") (by decide) rfl rfl,
   C3_per_device_failure_isolation.2.1 0
      ⟨some "dB", some "Basement", some "LeakSensor", none, none⟩ (.ok .jnull) rfl,
   C3_per_device_failure_isolation.2.2 0
      [(⟨some "dA", some "Attic", some "THSensor", some "tokA", none⟩, .exc "x")]
      (fun x hx => by
        rw [List.mem_singleton] at hx
        subst hx
        exact ⟨_, rfl⟩)⟩

theorem lt2_irrefl (x : String × String) : lt2 x x = false := by
  rcases x with ⟨x1, x2⟩
  simp [lt2, strLt_irrefl]

theorem lt3_irrefl (x : String × String × String) : lt3 x x = false := by
  rcases x with ⟨x1, x2⟩
  simp [lt3, strLt_irrefl, lt2_irrefl]

/-- C6: both sort policies.  The default sort orders ascending by the key
`(human type label, name)` and the `--sort-by-contact` sort by
`(trimmed last-contact string, type label, name)` (each comparator the
negation of the Python tuple `<` of the other row's key); both sorts are
permutations of the assembled rows, and stable: two rows with equal sort
keys keep their original catalog order. -/
theorem C6_sort_stable_keyed :
    ∀ rows : List Row,
      ((sortTable false rows).Perm rows ∧
        List.Pairwise (fun a b => defaultLe a b = true) (sortTable false rows)) ∧
      ((sortTable true rows).Perm rows ∧
        List.Pairwise (fun a b => contactLe a b = true) (sortTable true rows)) ∧
      (∀ a b : Row, rowKeyDefault a = rowKeyDefault b → [a, b].Sublist rows →
        [a, b].Sublist (sortTable false rows)) ∧
      (∀ a b : Row, rowKeyContact a = rowKeyContact b → [a, b].Sublist rows →
        [a, b].Sublist (sortTable true rows)) := by
  intro rows
  have hsf : sortTable false rows = rows.mergeSort defaultLe := by simp [sortTable]
  have hst : sortTable true rows = rows.mergeSort contactLe := by simp [sortTable]
  refine ⟨⟨?_, ?_⟩, ⟨?_, ?_⟩, ?_, ?_⟩
  · rw [hsf]; exact List.mergeSort_perm rows defaultLe
  · rw [hsf]; exact List.sorted_mergeSort defaultLe_trans defaultLe_total rows
  · rw [hst]; exact List.mergeSort_perm rows contactLe
  · rw [hst]; exact List.sorted_mergeSort contactLe_trans contactLe_total rows
  · intro a b hk hsub
    rw [hsf]
    refine List.pair_sublist_mergeSort defaultLe_trans defaultLe_total ?_ hsub
    simp [defaultLe, hk, lt2_irrefl]
  · intro a b hk hsub
    rw [hst]
    refine List.pair_sublist_mergeSort contactLe_trans contactLe_total ?_ hsub
    simp [contactLe, hk, lt3_irrefl]

/-- C6 witness: two rows with identical keys stay in catalog order under
both policies. -/
theorem C6_sort_stable_keyed_witness :
    [wRowA, wRowB].Sublist (sortTable false [wRowA, wRowB]) ∧
    [wRowA, wRowB].Sublist (sortTable true [wRowA, wRowB]) :=
  ⟨(C6_sort_stable_keyed [wRowA, wRowB]).2.2.1 wRowA wRowB rfl (List.Sublist.refl _),
   (C6_sort_stable_keyed [wRowA, wRowB]).2.2.2 wRowA wRowB rfl (List.Sublist.refl _)⟩

/-! Helper lemmas about string widths and non-emptiness. -/

theorem mk_length (l : List Char) : (String.mk l).length = l.length := rfl

theorem spaces_length (n : Nat) : (spaces n).length = n := by
  rw [spaces, mk_length, List.length_replicate]

theorem eq_empty_of_length_zero {a : String} (h : a.length = 0) : a = "" :=
  String.ext (List.length_eq_zero.mp h)

theorem ne_empty_of_length_pos {a : String} (h : 0 < a.length) : a ≠ "" := by
  intro e
  rw [e] at h
  simp at h

theorem length_pos_of_ne_empty {a : String} (h : a ≠ "") : 0 < a.length := by
  by_cases hz : a.length = 0
  · exact absurd (eq_empty_of_length_zero hz) h
  · omega

theorem pyRJust_length (s : String) (w : Nat) : (pyRJust s w).length = max w s.length := by
  rw [pyRJust, String.length_append, spaces_length]
  omega

theorem pyCenter_length (s : String) (w : Nat) : (pyCenter s w).length = max w s.length := by
  rw [pyCenter]
  simp only [String.length_append, spaces_length]
  omega

theorem pyCenter_ne_empty (s : String) (w : Nat) (hw : 0 < w) : pyCenter s w ≠ "" := by
  apply ne_empty_of_length_pos
  rw [pyCenter_length]
  omega

theorem append_ne_empty_left (a b : String) (h : a ≠ "") : a ++ b ≠ "" := by
  apply ne_empty_of_length_pos
  rw [String.length_append]
  have := length_pos_of_ne_empty h
  omega

theorem append_ne_empty_right (a b : String) (h : b ≠ "") : a ++ b ≠ "" := by
  apply ne_empty_of_length_pos
  rw [String.length_append]
  have := length_pos_of_ne_empty h
  omega

theorem pyLower_ne_empty {s : String} (h : s ≠ "") : pyLower s ≠ "" := by
  apply ne_empty_of_length_pos
  rw [pyLower, mk_length, List.length_map]
  exact length_pos_of_ne_empty h

theorem pyTake_ne_empty {s : String} (n : Nat) (h : s ≠ "") (hn : 0 < n) :
    pyTake s n ≠ "" := by
  apply ne_empty_of_length_pos
  rw [pyTake, mk_length, List.length_take]
  have := length_pos_of_ne_empty h
  have hl : s.length = s.toList.length := rfl
  omega

theorem toDigitsCore_length_mono :
    ∀ (f n : Nat) (l : List Char), l.length ≤ (Nat.toDigitsCore 10 f n l).length := by
  intro f
  induction f with
  | zero => intro n l; simp [Nat.toDigitsCore]
  | succ f ih =>
    intro n l
    rw [Nat.toDigitsCore]
    by_cases hz : n / 10 = 0
    · simp only [hz, if_true]
      simp
    · simp only [hz, if_false]
      exact Nat.le_trans (by simp) (ih (n / 10) (Nat.digitChar (n % 10) :: l))

theorem nat_repr_ne_empty (n : Nat) : Nat.repr n ≠ "" := by
  apply ne_empty_of_length_pos
  show 0 < (Nat.toDigits 10 n).asString.length
  rw [Nat.toDigits]
  have h := toDigitsCore_length_mono n n [Nat.digitChar (n % 10)]
  rw [Nat.toDigitsCore]
  by_cases hz : n / 10 = 0
  · simp [hz]
  · simp only [hz, if_false]
    have h2 := toDigitsCore_length_mono n (n / 10) (Nat.digitChar (n % 10) :: [])
    simp only [List.length_cons, List.length_nil] at h2
    have : (List.asString (Nat.toDigitsCore 10 n (n / 10) [Nat.digitChar (n % 10)])).length
        = (Nat.toDigitsCore 10 n (n / 10) [Nat.digitChar (n % 10)]).length := rfl
    omega

theorem int_toString_ne_empty (i : Int) : toString i ≠ "" := by
  show Int.repr i ≠ ""
  cases i with
  | ofNat n => exact nat_repr_ne_empty n
  | negSucc n =>
    show "-" ++ Nat.repr (n + 1) ≠ ""
    exact append_ne_empty_left _ _ (by decide)

theorem nat_toString_ne_empty (n : Nat) : toString n ≠ "" := nat_repr_ne_empty n

theorem padZeros_ne_empty {s : String} (k : Nat) (h : s ≠ "") : padZeros s k ≠ "" :=
  append_ne_empty_right _ _ h

theorem floatRepr_ne_empty (v : PyNum) : floatRepr v ≠ "" := by
  rw [floatRepr]
  by_cases hr : v.num.natAbs % v.den.natAbs = 0
  · simp only [hr, if_true]
    exact append_ne_empty_right _ _ (by decide)
  · simp only [hr, if_false]
    exact append_ne_empty_right _ _ (padZeros_ne_empty _ (nat_toString_ne_empty _))

theorem pyStr_ne_empty {v : JVal} (h : v ≠ .jstr "") : pyStr v ≠ "" := by
  cases v with
  | jstr s =>
    show s ≠ ""
    intro e
    exact h (by rw [e])
  | jint n => exact int_toString_ne_empty n
  | jfloat f => exact floatRepr_ne_empty f
  | jbool b => cases b <;> decide
  | jnull => decide
  | jobj o =>
    show "\x7b" ++ pyReprObj o ++ "\x7d" ≠ ""
    exact append_ne_empty_right _ _ (by decide)
  | jarr a =>
    show "[" ++ pyReprArr a ++ "]" ≠ ""
    exact append_ne_empty_right _ _ (by decide)

theorem format_temperature_ne_empty (v : Option PyNum) (dt : String) :
    format_temperature v dt ≠ "" := by
  cases v with
  | none => exact pyCenter_ne_empty _ _ (by omega)
  | some q =>
    apply ne_empty_of_length_pos
    show 0 < (pyRJust
      (if dt = "THSensor" then pyRJust (formatFix1 q) 5 ++ "C"
       else if q.valEq (PyNum.ofInt q.trunc) then pyRJust (toString q.trunc) 3 ++ "  C"
       else pyRJust (formatFix1 q) 5 ++ "C") 7).length
    rw [pyRJust_length]
    omega

theorem format_report_time_ne_empty (localOff : Int) (s : String) :
    format_report_time localOff s ≠ "" := by
  rw [format_report_time]
  by_cases he : s = ""
  · simp only [he, if_true]
    exact pyCenter_ne_empty _ _ (by omega)
  · simp only [he, if_false]
    cases pyFromIsoformat (pyReplaceZ s) with
    | none => exact pyCenter_ne_empty _ _ (by omega)
    | some dt =>
      simp only
      cases toLocal localOff dt with
      | none => exact pyCenter_ne_empty _ _ (by omega)
      | some lt => exact pyCenter_ne_empty _ _ (by omega)

theorem getD_ne_empty {x : Option String} (h : x ≠ some "") : x.getD "N/A" ≠ "" := by
  cases x with
  | none => decide
  | some s =>
    show s ≠ ""
    intro e
    exact h (by rw [e])

theorem format_device_type_ne_empty {t : String} (m : String) (h : t ≠ "") :
    format_device_type t m ≠ "" := by
  rw [format_device_type]
  split_ifs <;> first | decide | exact h

theorem get_model_from_appeui_ne_empty (s : String) : get_model_from_appeui s ≠ "" := by
  rw [get_model_from_appeui]
  split_ifs
  · exact append_ne_empty_right _ _ (by decide)
  · decide

/-! Inversion lemmas for the row-building pieces. -/

theorem batteryField_ok_ne_empty (o : List (String × JVal)) (bs : String)
    (h : batteryField o = .ok bs) : bs ≠ "" := by
  rw [batteryField] at h
  cases hb : jget o "battery" with
  | none =>
    simp only [hb, Except.ok.injEq] at h
    rw [← h]
    decide
  | some bv =>
    simp only [hb] at h
    cases hq : pyToNum bv with
    | error e => simp only [hq, bind, Except.bind] at h; simp at h
    | ok q =>
      simp only [hq, bind, Except.bind, Except.ok.injEq] at h
      rw [← h]
      exact append_ne_empty_right _ _ (by decide)

theorem stateLowerOf_ok_ne_empty (a b : String) (raw : JVal) (st : String)
    (ha : a ≠ "") (hb : b ≠ "") (hraw : raw ≠ .jstr "")
    (h : stateLowerOf a b raw = .ok st) : st ≠ "" := by
  rw [stateLowerOf] at h
  by_cases h1 : jvalEqStr raw "alert" = true
  · rw [if_pos h1] at h
    simp only [Except.ok.injEq] at h
    rw [← h]; exact ha
  · rw [if_neg h1] at h
    by_cases h2 : (jvalEqStr raw "normal" || jvalEqStr raw "off") = true
    · rw [if_pos h2] at h
      simp only [Except.ok.injEq] at h
      rw [← h]; exact hb
    · rw [if_neg h2] at h
      cases raw with
      | jstr s =>
        simp only [pyAsStr, bind, Except.bind, Except.ok.injEq] at h
        rw [← h]
        apply pyLower_ne_empty
        intro e
        exact hraw (by rw [e])
      | jint n => simp [pyAsStr, bind, Except.bind] at h
      | jfloat f => simp [pyAsStr, bind, Except.bind] at h
      | jbool x => simp [pyAsStr, bind, Except.bind] at h
      | jnull => simp [pyAsStr, bind, Except.bind] at h
      | jobj oo => simp [pyAsStr, bind, Except.bind] at h
      | jarr aa => simp [pyAsStr, bind, Except.bind] at h

theorem stateSummary_ok_wf (dt : String) (o : List (String × JVal))
    (s nm sv : String) (h : stateSummary dt o = .ok (s, nm, sv))
    (hst : jget o "state" ≠ some (.jstr ""))
    (hnm : jget o "nomotionDelay" ≠ some (.jstr ""))
    (hsv : jget o "sensitivity" ≠ some (.jstr "")) :
    s ≠ "" ∧ nm ≠ "" ∧ sv ≠ "" := by
  have hraw : (jget o "state").getD (.jstr "N/A") ≠ .jstr "" := by
    cases hx : jget o "state" with
    | none => simp
    | some v =>
      simp only [Option.getD_some]
      intro e
      rw [e] at hx
      exact hst hx
  have hnmv : pyStr ((jget o "nomotionDelay").getD (.jstr "N/A")) ≠ "" := by
    cases hx : jget o "nomotionDelay" with
    | none => decide
    | some v =>
      simp only [Option.getD_some]
      apply pyStr_ne_empty
      intro e
      rw [e] at hx
      exact hnm hx
  have hsvv : pyStr ((jget o "sensitivity").getD (.jstr "N/A")) ≠ "" := by
    cases hx : jget o "sensitivity" with
    | none => decide
    | some v =>
      simp only [Option.getD_some]
      apply pyStr_ne_empty
      intro e
      rw [e] at hx
      exact hsv hx
  rw [stateSummary.eq_def] at h
  by_cases hmot : dt = "MotionSensor"
  · rw [if_pos hmot] at h
    cases hsl : stateLowerOf "motion detected" "no motion"
        ((jget o "state").getD (.jstr "N/A")) with
    | error e => simp only [hsl, bind, Except.bind] at h; simp at h
    | ok st =>
      simp only [hsl, bind, Except.bind, Except.ok.injEq, Prod.mk.injEq] at h
      obtain ⟨h1, h2, h3⟩ := h
      refine ⟨?_, ?_, ?_⟩
      · rw [← h1]
        exact stateLowerOf_ok_ne_empty _ _ _ _ (by decide) (by decide) hraw hsl
      · rw [← h2]; exact hnmv
      · rw [← h3]; exact hsvv
  · rw [if_neg hmot] at h
    by_cases hleak : dt = "LeakSensor"
    · rw [if_pos hleak] at h
      cases hsl : stateLowerOf "wet" "dry" ((jget o "state").getD (.jstr "N/A")) with
      | error e => simp only [hsl, bind, Except.bind] at h; simp at h
      | ok st =>
        simp only [hsl, bind, Except.bind, Except.ok.injEq, Prod.mk.injEq] at h
        obtain ⟨h1, h2, h3⟩ := h
        refine ⟨?_, ?_, ?_⟩
        · rw [← h1]
          exact stateLowerOf_ok_ne_empty _ _ _ _ (by decide) (by decide) hraw hsl
        · rw [← h2]; decide
        · rw [← h3]; decide
    · rw [if_neg hleak] at h
      cases hx : jget o "state" with
      | some sv' =>
        simp only [hx] at h
        cases sv' with
        | jstr s' =>
          simp only [pyAsStr, bind, Except.bind, Except.ok.injEq, Prod.mk.injEq] at h
          obtain ⟨h1, h2, h3⟩ := h
          have hs' : s' ≠ "" := by
            intro e
            rw [e] at hx
            exact hst hx
          refine ⟨?_, ?_, ?_⟩
          · rw [← h1]
            apply pyLower_ne_empty
            exact pyTake_ne_empty 20 hs' (by omega)
          · rw [← h2]; decide
          · rw [← h3]; decide
        | jint n => simp [pyAsStr, bind, Except.bind] at h
        | jfloat f => simp [pyAsStr, bind, Except.bind] at h
        | jbool x => simp [pyAsStr, bind, Except.bind] at h
        | jnull => simp [pyAsStr, bind, Except.bind] at h
        | jobj oo => simp [pyAsStr, bind, Except.bind] at h
        | jarr aa => simp [pyAsStr, bind, Except.bind] at h
      | none =>
        simp only [hx] at h
        cases o with
        | nil =>
          simp only [Except.ok.injEq, Prod.mk.injEq] at h
          obtain ⟨h1, h2, h3⟩ := h
          exact ⟨by rw [← h1]; decide, by rw [← h2]; decide, by rw [← h3]; decide⟩
        | cons kv rest =>
          rcases kv with ⟨k, v⟩
          by_cases hk : k = ""
          · simp only [hk, ne_eq, not_true_eq_false, if_false, Except.ok.injEq,
              Prod.mk.injEq] at h
            obtain ⟨h1, h2, h3⟩ := h
            exact ⟨by rw [← h1]; decide, by rw [← h2]; decide, by rw [← h3]; decide⟩
          · simp only [ne_eq, hk, not_false_eq_true, if_true, Except.ok.injEq,
              Prod.mk.injEq] at h
            obtain ⟨h1, h2, h3⟩ := h
            refine ⟨?_, by rw [← h2]; decide, by rw [← h3]; decide⟩
            rw [← h1]
            apply pyLower_ne_empty
            apply append_ne_empty_left
            exact append_ne_empty_left _ _ hk

theorem reportStep_ok_ne_empty (localOff : Int) (did dn : String) (res : DevProps)
    (je : Option JsonEntry) (rt : String)
    (h : reportStep localOff did dn res = .ok (je, rt)) : rt ≠ "" := by
  rw [reportStep] at h
  cases hr : res.response with
  | none =>
    simp only [hr, Except.ok.injEq, Prod.mk.injEq] at h
    rw [← h.2]
    exact pyCenter_ne_empty _ _ (by omega)
  | some r =>
    simp only [hr] at h
    by_cases ht : jtruthy r = true
    · rw [if_pos ht] at h
      cases hd : pyDictGet r "data" (.jobj []) with
      | error e => simp only [hd, bind, Except.bind] at h; simp at h
      | ok dataV =>
        simp only [hd, bind, Except.bind] at h
        cases hra : pyDictGetOpt dataV "reportAt" with
        | error e => simp only [hra, bind, Except.bind] at h; simp at h
        | ok report_at =>
          simp only [hra, bind, Except.bind] at h
          cases report_at with
          | none =>
            simp only [Except.ok.injEq, Prod.mk.injEq] at h
            rw [← h.2]
            exact pyCenter_ne_empty _ _ (by omega)
          | some ra =>
            simp only at h
            by_cases hrat : jtruthy ra = true
            · rw [if_pos hrat] at h
              cases ra with
              | jstr s =>
                simp only [pyAsStr, bind, Except.bind, Except.ok.injEq,
                  Prod.mk.injEq] at h
                rw [← h.2]
                exact format_report_time_ne_empty localOff s
              | jint n => simp [pyAsStr, bind, Except.bind] at h
              | jfloat f => simp [pyAsStr, bind, Except.bind] at h
              | jbool x => simp [pyAsStr, bind, Except.bind] at h
              | jnull => simp [pyAsStr, bind, Except.bind] at h
              | jobj oo => simp [pyAsStr, bind, Except.bind] at h
              | jarr aa => simp [pyAsStr, bind, Except.bind] at h
            · rw [if_neg hrat] at h
              simp only [Except.ok.injEq, Prod.mk.injEq] at h
              rw [← h.2]
              exact pyCenter_ne_empty _ _ (by omega)
    · rw [if_neg ht] at h
      simp only [Except.ok.injEq, Prod.mk.injEq] at h
      rw [← h.2]
      exact pyCenter_ne_empty _ _ (by omega)

theorem extractStateFields_wf (dt : String) (p : Option JVal) (sf : StateFields)
    (h : extractStateFields dt p = .ok sf)
    (hwf : ∀ o, p = some (.jobj o) → stateWF o) :
    sf.battery ≠ "" ∧ (∀ t, sf.temperature = some t → t ≠ "") ∧
    (∃ s, sf.version = .jstr s ∧ s ≠ "") ∧
    sf.state_str ≠ "" ∧ sf.nomotion ≠ "" ∧ sf.sensitivity ≠ "" := by
  cases p with
  | none =>
    simp only [extractStateFields.eq_def, Except.ok.injEq] at h
    rw [← h]
    refine ⟨by decide, ?_, ⟨"N/A", rfl, by decide⟩, by decide, by decide, by decide⟩
    intro t ht
    simp [defaultStateFields] at ht
  | some props =>
    simp only [extractStateFields.eq_def] at h
    by_cases htr : jtruthy props = true
    · rw [if_neg (by simp [htr])] at h
      cases props with
      | jobj o =>
        obtain ⟨hst, hver, hnm, hsv⟩ := hwf o rfl
        cases hbf : batteryField o with
        | error e => simp only [hbf, bind, Except.bind] at h; simp at h
        | ok bs =>
          simp only [hbf, bind, Except.bind] at h
          cases htp : tempProbe o with
          | error e => simp only [htp, bind, Except.bind] at h; simp at h
          | ok tv =>
            simp only [htp, bind, Except.bind] at h
            cases hss : stateSummary dt o with
            | error e => simp only [hss, bind, Except.bind] at h; simp at h
            | ok triple =>
              rcases triple with ⟨st, nmv, svv⟩
              simp only [hss, bind, Except.bind, Except.ok.injEq] at h
              obtain ⟨hs1, hs2, hs3⟩ := stateSummary_ok_wf dt o st nmv svv hss hst hnm hsv
              rw [← h]
              refine ⟨batteryField_ok_ne_empty o bs hbf, ?_, ?_, hs1, hs2, hs3⟩
              · intro t ht
                simp only [Option.some.injEq] at ht
                rw [← ht]
                exact format_temperature_ne_empty tv dt
              · rw [versionField]
                cases hx : jget o "version" with
                | none => exact ⟨"N/A", rfl, by decide⟩
                | some v =>
                  simp only [Option.getD_some]
                  exact hver v hx
      | jstr s => simp at h
      | jint n => simp at h
      | jfloat f => simp at h
      | jbool x => simp at h
      | jnull => simp at h
      | jarr a => simp at h
    · rw [if_pos (by simp [htr])] at h
      simp only [Except.ok.injEq] at h
      rw [← h]
      refine ⟨by decide, ?_, ⟨"N/A", rfl, by decide⟩, by decide, by decide, by decide⟩
      intro t ht
      simp [defaultStateFields] at ht

theorem nonemptyStrField_jstr {s : String} (h : s ≠ "") :
    nonemptyStrField (.jstr s) = true := by
  simp [nonemptyStrField, h]

theorem jstr_some_ne {a b : String} (h : a ≠ b) :
    some (JVal.jstr a) ≠ some (JVal.jstr b) := by
  intro e
  injection e with e1
  injection e1 with e2
  exact h e2

/-- C9 counterexample: the defaults substitute `"N/A"` only for *missing*
keys; a catalog entry whose `name` is present but empty produces a row
with an empty name field, so not every field of every assembled row is a
non-empty string. -/
theorem C9_row_invariant_counterexample :
    buildRow 0 ⟨some "d1", some "", some "DoorSensor", none, none⟩ (.exc "x") =
      .ok (defaultRow ⟨some "d1", some "", some "DoorSensor", none, none⟩, [], none) ∧
    (rowFields (defaultRow ⟨some "d1", some "", some "DoorSensor", none, none⟩)).all
      nonemptyStrField = false :=
  ⟨rfl, by decide⟩

/-- C9 (amended): every row assembled by the loop has exactly the 11
fields of the printed header, in the header's column order, and every
field is a non-empty string — with `"N/A"` for missing data — provided
the upstream values themselves are non-blank: the catalog entry's present
`name`/`deviceId`/`type` are non-empty, and the state payload's present
`state`/`nomotionDelay`/`sensitivity`/`version` values are non-empty
strings where a string is required. -/
theorem C9_row_invariant (localOff : Int) (d : Device) (oc : FetchOutcome)
    (row : Row) (ws : List String) (je : Option JsonEntry)
    (hrow : buildRow localOff d oc = .ok (row, ws, je)) :
    (rowFields row).length = headerTitles.length ∧
    (deviceWF d →
      (∀ o, (get_device_properties (d.deviceId.getD "N/A") oc).properties =
          some (.jobj o) → stateWF o) →
      (rowFields row).all nonemptyStrField = true) := by
  constructor
  · rfl
  · intro hdev hstate
    obtain ⟨hname, hid, htype⟩ := hdev
    simp only [buildRow, bind, Except.bind] at hrow
    by_cases htok : d.token.getD "" = ""
    · rw [if_pos htok] at hrow
      simp only [Except.ok.injEq, Prod.mk.injEq] at hrow
      obtain ⟨hr, -, -⟩ := hrow
      rw [← hr]
      simp only [rowFields, List.all_cons, List.all_nil, Bool.and_eq_true, and_true]
      refine ⟨?_, ?_, ?_, ?_, ?_, ?_, ?_, ?_, ?_, ?_, ?_⟩
      · exact nonemptyStrField_jstr (format_device_type_ne_empty _ (getD_ne_empty htype))
      · exact nonemptyStrField_jstr (getD_ne_empty hname)
      · exact nonemptyStrField_jstr (getD_ne_empty hid)
      · exact nonemptyStrField_jstr (get_model_from_appeui_ne_empty _)
      · decide
      · exact nonemptyStrField_jstr (format_temperature_ne_empty _ _)
      · exact nonemptyStrField_jstr (pyCenter_ne_empty _ _ (by omega))
      · decide
      · decide
      · decide
      · decide
    · rw [if_neg htok] at hrow
      cases hrs : reportStep localOff (d.deviceId.getD "N/A") (d.name.getD "N/A")
          (get_device_properties (d.deviceId.getD "N/A") oc) with
      | error e => simp only [hrs, bind, Except.bind] at hrow; simp at hrow
      | ok pr =>
        rcases pr with ⟨je2, rt⟩
        simp only [hrs, bind, Except.bind] at hrow
        cases hsf : extractStateFields (d.type.getD "N/A")
            (get_device_properties (d.deviceId.getD "N/A") oc).properties with
        | error e => simp only [hsf, bind, Except.bind] at hrow; simp at hrow
        | ok sf =>
          simp only [hsf, bind, Except.bind, Except.ok.injEq, Prod.mk.injEq] at hrow
          obtain ⟨hr, -, -⟩ := hrow
          obtain ⟨hb, htmp, ⟨vs, hvs, hvs'⟩, hss, hnm2, hsv2⟩ :=
            extractStateFields_wf _ _ _ hsf hstate
          have hrt := reportStep_ok_ne_empty _ _ _ _ _ _ hrs
          rw [← hr]
          simp only [rowFields, List.all_cons, List.all_nil, Bool.and_eq_true, and_true]
          refine ⟨?_, ?_, ?_, ?_, ?_, ?_, ?_, ?_, ?_, ?_, ?_⟩
          · exact nonemptyStrField_jstr (format_device_type_ne_empty _ (getD_ne_empty htype))
          · exact nonemptyStrField_jstr (getD_ne_empty hname)
          · exact nonemptyStrField_jstr (getD_ne_empty hid)
          · exact nonemptyStrField_jstr (get_model_from_appeui_ne_empty _)
          · exact nonemptyStrField_jstr hb
          · cases htemp : sf.temperature with
            | some t =>
              simp only [htemp]
              exact nonemptyStrField_jstr (htmp t htemp)
            | none =>
              simp only [htemp]
              exact nonemptyStrField_jstr (format_temperature_ne_empty _ _)
          · exact nonemptyStrField_jstr hrt
          · exact nonemptyStrField_jstr hnm2
          · exact nonemptyStrField_jstr hsv2
          · exact nonemptyStrField_jstr hss
          · rw [hvs]
            exact nonemptyStrField_jstr hvs'

/-- C9 witness. -/
theorem C9_row_invariant_witness :
    ∃ row ws je,
      buildRow (-480) ⟨some "d3", some "Garage", some "DoorSensor", some "tok3",
          some "d88b4c7706000000"⟩
        (.ok (.jobj [("code", .jstr "0"),
          ("data", .jobj [("reportAt", .jstr "2025-12-09T08:54:34.042Z"),
            ("state", .jobj [("battery", .jint 2), ("state", .jstr "closed"),
              ("version", .jstr "0806")])])])) = .ok (row, ws, je) ∧
      (rowFields row).length = headerTitles.length ∧
      (rowFields row).all nonemptyStrField = true := by
  refine ⟨_, _, _, rfl, ?_⟩
  have h := C9_row_invariant (-480)
    ⟨some "d3", some "Garage", some "DoorSensor", some "tok3", some "d88b4c7706000000"⟩
    (.ok (.jobj [("code", .jstr "0"),
      ("data", .jobj [("reportAt", .jstr "2025-12-09T08:54:34.042Z"),
        ("state", .jobj [("battery", .jint 2), ("state", .jstr "closed"),
          ("version", .jstr "0806")])])])) _ _ _ rfl
  refine ⟨h.1, h.2 ?_ ?_⟩
  · refine ⟨?_, ?_, ?_⟩ <;> simp
  · intro o ho
    have ho2 : some (JVal.jobj [("battery", JVal.jint 2), ("state", JVal.jstr "closed"),
        ("version", JVal.jstr "0806")]) = some (JVal.jobj o) := by
      rw [← ho]
      rfl
    injection ho2 with h1
    injection h1 with h2
    subst h2
    refine ⟨?_, ?_, ?_, ?_⟩
    · rw [show jget [("battery", JVal.jint 2), ("state", JVal.jstr "closed"),
        ("version", JVal.jstr "0806")] "state" = some (JVal.jstr "closed") from rfl]
      exact jstr_some_ne (by decide)
    all_goals try
      (rw [show jget [("battery", JVal.jint 2), ("state", JVal.jstr "closed"),
        ("version", JVal.jstr "0806")] "nomotionDelay" = none from rfl]
       exact fun e => Option.noConfusion e)
    all_goals try
      (rw [show jget [("battery", JVal.jint 2), ("state", JVal.jstr "closed"),
        ("version", JVal.jstr "0806")] "sensitivity" = none from rfl]
       exact fun e => Option.noConfusion e)
    intro v hv
    rw [show jget [("battery", JVal.jint 2), ("state", JVal.jstr "closed"),
      ("version", JVal.jstr "0806")] "version" = some (JVal.jstr "0806") from rfl] at hv
    injection hv with hv2
    exact ⟨"0806", hv2.symm, by decide⟩

/-! Bounds on the datetime machinery, used for the 19-character width. -/

theorem char_digit_bounds (c : Char) (h : c.isDigit = true) :
    c.toNat - 48 ≤ 9 ∧ 48 ≤ c.toNat := by
  simp only [Char.isDigit, ge_iff_le, Bool.and_eq_true, decide_eq_true_eq] at h
  obtain ⟨h1, h2⟩ := h
  rw [UInt32.le_def, BitVec.le_def] at h1 h2
  have e1 : ((48 : UInt32).toBitVec).toNat = 48 := rfl
  have e2 : ((57 : UInt32).toBitVec).toNat = 57 := rfl
  rw [e1] at h1
  rw [e2] at h2
  have hc : c.toNat = c.val.toBitVec.toNat := rfl
  rw [hc]
  omega

theorem digitsToNat_foldl_lt :
    ∀ (cs : List Char) (a : Nat), cs.all Char.isDigit = true →
      cs.foldl (fun a c => a * 10 + (c.toNat - 48)) a < (a + 1) * 10 ^ cs.length := by
  intro cs
  induction cs with
  | nil => intro a _; simp
  | cons c cs ih =>
    intro a hall
    simp only [List.all_cons, Bool.and_eq_true] at hall
    have hd := (char_digit_bounds c hall.1).1
    have := ih (a * 10 + (c.toNat - 48)) hall.2
    calc List.foldl (fun a c => a * 10 + (c.toNat - 48)) (a * 10 + (c.toNat - 48)) cs
        < (a * 10 + (c.toNat - 48) + 1) * 10 ^ cs.length := this
      _ ≤ ((a + 1) * 10) * 10 ^ cs.length := by
          apply Nat.mul_le_mul_right
          omega
      _ = (a + 1) * 10 ^ (c :: cs).length := by
          rw [List.length_cons, pow_succ]
          ring

theorem digitsToNat_lt (cs : List Char) (h : cs.all Char.isDigit = true) :
    digitsToNat cs < 10 ^ cs.length := by
  have := digitsToNat_foldl_lt cs 0 h
  simpa [digitsToNat] using this

theorem readN_lt (n : Nat) (cs : List Char) (v : Nat) (rest : List Char)
    (h : readN n cs = some (v, rest)) : v < 10 ^ n := by
  rw [readN] at h
  by_cases hc : (cs.take n).length = n ∧ (cs.take n).all Char.isDigit = true
  · rw [if_pos hc] at h
    simp only [Option.some.injEq, Prod.mk.injEq] at h
    have hlt := digitsToNat_lt _ hc.2
    rw [hc.1] at hlt
    rw [← h.1]
    exact hlt
  · rw [if_neg hc] at h
    cases h

theorem parseFracTail_sec (s2 : Nat) (ra : List Char) (sec mic : Nat) (rest : List Char)
    (h : parseFracTail s2 ra = some (sec, mic, rest)) : sec = s2 := by
  cases ra with
  | nil =>
    simp only [parseFracTail, Option.some.injEq, Prod.mk.injEq] at h
    omega
  | cons c rb =>
    rw [parseFracTail] at h
    by_cases hc : c = '.' ∨ c = ','
    · rw [if_pos hc] at h
      cases hf : parseFraction rb with
      | none => rw [hf] at h; cases h
      | some q =>
        rcases q with ⟨m2, rc⟩
        rw [hf] at h
        simp only [Option.some.injEq, Prod.mk.injEq] at h
        omega
    · rw [if_neg hc] at h
      simp only [Option.some.injEq, Prod.mk.injEq] at h
      omega

theorem parseSecFrac_le (r : List Char) (sec mic : Nat) (rest : List Char)
    (h : parseSecFrac r = some (sec, mic, rest)) : sec ≤ 59 := by
  cases r with
  | nil =>
    simp only [parseSecFrac, Option.some.injEq, Prod.mk.injEq] at h
    omega
  | cons c r' =>
    rw [parseSecFrac] at h
    by_cases hc : c = ':'
    · rw [if_pos hc] at h
      cases hr : readN 2 r' with
      | none => rw [hr] at h; cases h
      | some p =>
        rcases p with ⟨s2, ra⟩
        simp only [hr] at h
        by_cases hs : s2 ≤ 59
        · rw [if_pos hs] at h
          have := parseFracTail_sec s2 ra sec mic rest h
          omega
        · rw [if_neg hs] at h
          cases h
    · rw [if_neg hc] at h
      simp only [Option.some.injEq, Prod.mk.injEq] at h
      omega

theorem daysInMonth_bounds (y : Int) (m : Nat) :
    28 ≤ daysInMonth y m ∧ daysInMonth y m ≤ 31 := by
  rw [daysInMonth]
  split_ifs <;> omega

theorem nextDay_valid (x : Int × Nat × Nat) (hx : ValidMD x) : ValidMD (nextDay x) := by
  rcases x with ⟨y, m, d⟩
  dsimp only [ValidMD] at hx
  obtain ⟨h1, h2, h3, h4⟩ := hx
  rw [nextDay]
  split_ifs with hd hm
  · have := (daysInMonth_bounds y m).2
    dsimp only [ValidMD]
    omega
  · dsimp only [ValidMD]
    omega
  · dsimp only [ValidMD]
    omega

theorem prevDay_valid (x : Int × Nat × Nat) (hx : ValidMD x) : ValidMD (prevDay x) := by
  rcases x with ⟨y, m, d⟩
  dsimp only [ValidMD] at hx
  obtain ⟨h1, h2, h3, h4⟩ := hx
  rw [prevDay]
  split_ifs with hd hm
  · dsimp only [ValidMD]
    omega
  · have := daysInMonth_bounds y (m - 1)
    dsimp only [ValidMD]
    omega
  · dsimp only [ValidMD]
    omega

theorem iterate_validMD {f : Int × Nat × Nat → Int × Nat × Nat}
    (hf : ∀ x, ValidMD x → ValidMD (f x)) :
    ∀ (n : Nat) (x : Int × Nat × Nat), ValidMD x → ValidMD (f^[n] x) := by
  intro n
  induction n with
  | zero => intro x hx; simpa using hx
  | succ n ih =>
    intro x hx
    rw [Function.iterate_succ_apply]
    exact ih _ (hf x hx)

theorem addDays_valid (k : Int) (x : Int × Nat × Nat) (hx : ValidMD x) :
    ValidMD (addDays k x) := by
  rw [addDays]
  split_ifs with hk
  · exact iterate_validMD nextDay_valid _ _ hx
  · exact iterate_validMD prevDay_valid _ _ hx

theorem emod1440_bounds (t : Int) :
    (t.emod 1440).toNat / 60 ≤ 23 ∧ (t.emod 1440).toNat % 60 ≤ 59 := by
  have h1 : 0 ≤ t.emod 1440 := Int.emod_nonneg _ (by norm_num)
  have h2 : t.emod 1440 < 1440 := Int.emod_lt_of_pos _ (by norm_num)
  omega

theorem pyFromIsoformat_bounds (s : String) (dt : PyDateTime)
    (h : pyFromIsoformat s = some dt) :
    1 ≤ dt.year ∧ dt.year ≤ 9999 ∧ 1 ≤ dt.month ∧ dt.month ≤ 12 ∧
    1 ≤ dt.day ∧ dt.day ≤ 31 ∧ dt.hour ≤ 23 ∧ dt.minute ≤ 59 ∧ dt.second ≤ 59 := by
  simp only [pyFromIsoformat, bind, Option.bind] at h
  cases h4 : readN 4 s.toList with
  | none => simp only [h4] at h; exact Option.noConfusion h
  | some p1 =>
    rcases p1 with ⟨y, r1⟩
    have hylt := readN_lt _ _ _ _ h4
    simp only [h4] at h
    cases hE1 : expectCh '-' r1 with
    | none => simp only [hE1] at h; exact Option.noConfusion h
    | some r2 =>
      simp only [hE1] at h
      cases h5 : readN 2 r2 with
      | none => simp only [h5] at h; exact Option.noConfusion h
      | some p2 =>
        rcases p2 with ⟨mo, r3⟩
        simp only [h5] at h
        cases hE2 : expectCh '-' r3 with
        | none => simp only [hE2] at h; exact Option.noConfusion h
        | some r4 =>
          simp only [hE2] at h
          cases h6 : readN 2 r4 with
          | none => simp only [h6] at h; exact Option.noConfusion h
          | some p3 =>
            rcases p3 with ⟨d, r5⟩
            simp only [h6] at h
            by_cases hg : 1 ≤ y ∧ 1 ≤ mo ∧ mo ≤ 12 ∧ 1 ≤ d ∧ d ≤ daysInMonth (↑y) mo
            · rw [if_pos hg] at h
              obtain ⟨hg1, hg2, hg3, hg4, hg5⟩ := hg
              have hdm := (daysInMonth_bounds (↑y) mo).2
              have hten : (10 : Nat) ^ 4 = 10000 := by norm_num
              cases r5 with
              | nil =>
                simp only [Option.some.injEq] at h
                subst h
                dsimp only
                refine ⟨by omega, by omega, hg2, hg3, hg4, by omega, by omega, by omega,
                  by omega⟩
              | cons sep r6 =>
                dsimp only at h
                by_cases hsep : sep = 'T' ∨ sep = 't' ∨ sep = ' '
                · rw [if_pos hsep] at h
                  cases h7 : readN 2 r6 with
                  | none => simp only [h7] at h; exact Option.noConfusion h
                  | some p4 =>
                    rcases p4 with ⟨hh, r7⟩
                    simp only [h7] at h
                    cases hE3 : expectCh ':' r7 with
                    | none => simp only [hE3] at h; exact Option.noConfusion h
                    | some r8 =>
                      simp only [hE3] at h
                      cases h8 : readN 2 r8 with
                      | none => simp only [h8] at h; exact Option.noConfusion h
                      | some p5 =>
                        rcases p5 with ⟨mi, r9⟩
                        simp only [h8] at h
                        by_cases hg2' : hh ≤ 23 ∧ mi ≤ 59
                        · rw [if_pos hg2'] at h
                          cases h9 : parseSecFrac r9 with
                          | none => simp only [h9] at h; exact Option.noConfusion h
                          | some p6 =>
                            rcases p6 with ⟨sec, mic, r10⟩
                            have hsec := parseSecFrac_le _ _ _ _ h9
                            simp only [h9] at h
                            cases h10 : parseOffset r10 with
                            | none => simp only [h10] at h; exact Option.noConfusion h
                            | some off =>
                              simp only [h10, Option.some.injEq] at h
                              subst h
                              dsimp only
                              refine ⟨by omega, by omega, hg2, hg3, hg4, by omega,
                                hg2'.1, hg2'.2, hsec⟩
                        · rw [if_neg hg2'] at h
                          exact Option.noConfusion h
                · rw [if_neg hsep] at h
                  exact Option.noConfusion h
            · rw [if_neg hg] at h
              exact Option.noConfusion h

theorem toLocal_bounds (localOff : Int) (dt lt : PyDateTime)
    (h : toLocal localOff dt = some lt)
    (hy : 1 ≤ dt.year ∧ dt.year ≤ 9999) (hm : 1 ≤ dt.month ∧ dt.month ≤ 12)
    (hd : 1 ≤ dt.day ∧ dt.day ≤ 31) (hh : dt.hour ≤ 23) (hmi : dt.minute ≤ 59)
    (hs : dt.second ≤ 59) :
    1 ≤ lt.year ∧ lt.year ≤ 9999 ∧ 1 ≤ lt.month ∧ lt.month ≤ 12 ∧
    1 ≤ lt.day ∧ lt.day ≤ 31 ∧ lt.hour ≤ 23 ∧ lt.minute ≤ 59 ∧ lt.second ≤ 59 := by
  rw [toLocal] at h
  cases hoff : dt.offset with
  | none =>
    simp only [hoff, Option.some.injEq] at h
    rw [← h]
    exact ⟨hy.1, hy.2, hm.1, hm.2, hd.1, hd.2, hh, hmi, hs⟩
  | some off =>
    simp only [hoff] at h
    rcases haD : addDays ((↑dt.hour * 60 + ↑dt.minute + (localOff - off)).ediv 1440)
        (dt.year, dt.month, dt.day) with ⟨y2, mo2, d2⟩
    have hvalid := addDays_valid ((↑dt.hour * 60 + ↑dt.minute + (localOff - off)).ediv 1440)
        (dt.year, dt.month, dt.day) ⟨hm.1, hm.2, hd.1, hd.2⟩
    rw [haD] at hvalid h
    dsimp only [ValidMD] at hvalid
    obtain ⟨v1, v2, v3, v4⟩ := hvalid
    have hem := emod1440_bounds (↑dt.hour * 60 + ↑dt.minute + (localOff - off))
    by_cases hg : 1 ≤ y2 ∧ y2 ≤ 9999
    · rw [if_pos hg] at h
      simp only [Option.some.injEq] at h
      subst h
      exact ⟨hg.1, hg.2, v1, v2, v3, v4, hem.1, hem.2, hs⟩
    · rw [if_neg hg] at h
      cases h

theorem pad2_length_le (n : Nat) (h : n ≤ 99) : (pad2 n).length ≤ 2 := by
  rw [pad2]
  split_ifs with h10
  · rw [String.length_append]
    have he : (toString n) = Nat.repr n := rfl
    rw [he]
    have := Nat.repr_length n 1 (by omega) (by omega)
    have h0 : ("0" : String).length = 1 := rfl
    omega
  · show (Nat.repr n).length ≤ 2
    exact Nat.repr_length n 2 (by omega) (by omega)

theorem year_length_le (y : Int) (h1 : 1 ≤ y) (h2 : y ≤ 9999) :
    (toString y).length ≤ 4 := by
  have hy : y = (y.toNat : Int) := (Int.toNat_of_nonneg (by omega)).symm
  rw [hy]
  show (Nat.repr y.toNat).length ≤ 4
  apply Nat.repr_length _ 4 (by omega)
  have hten : (10 : Nat) ^ 4 = 10000 := by norm_num
  omega

theorem strftime_length_le (dt : PyDateTime) (hy1 : 1 ≤ dt.year) (hy2 : dt.year ≤ 9999)
    (hm : dt.month ≤ 99) (hd : dt.day ≤ 99) (hh : dt.hour ≤ 99) (hmi : dt.minute ≤ 99)
    (hs : dt.second ≤ 99) : (strftimeYmdHms dt).length ≤ 19 := by
  rw [strftimeYmdHms]
  simp only [String.length_append]
  have h1 := year_length_le dt.year hy1 hy2
  have h2 := pad2_length_le dt.month hm
  have h3 := pad2_length_le dt.day hd
  have h4 := pad2_length_le dt.hour hh
  have h5 := pad2_length_le dt.minute hmi
  have h6 := pad2_length_le dt.second hs
  have e1 : ("-" : String).length = 1 := rfl
  have e2 : (" " : String).length = 1 := rfl
  have e3 : (":" : String).length = 1 := rfl
  omega

theorem format_report_time_length (localOff : Int) (s : String) :
    (format_report_time localOff s).length = 19 := by
  rw [format_report_time]
  split_ifs with he
  · rw [pyCenter_length]
    decide
  · cases hp : pyFromIsoformat (pyReplaceZ s) with
    | none =>
      simp only [hp]
      rw [pyCenter_length]
      decide
    | some dt =>
      simp only [hp]
      cases hl : toLocal localOff dt with
      | none =>
        simp only [hl]
        rw [pyCenter_length]
        decide
      | some lt =>
        simp only [hl]
        rw [pyCenter_length]
        obtain ⟨b1, b2, b3, b4, b5, b6, b7, b8, b9⟩ := pyFromIsoformat_bounds _ _ hp
        obtain ⟨c1, c2, c3, c4, c5, c6, c7, c8, c9⟩ :=
          toLocal_bounds localOff dt lt hl ⟨b1, b2⟩ ⟨b3, b4⟩ ⟨b5, b6⟩ b7 b8 b9
        have hst := strftime_length_le lt c1 c2 (by omega) (by omega) (by omega) (by omega)
          (by omega)
        omega

/-- C8 counterexample: `"9999-12-31T23:00:00Z"` is a valid ISO-8601 UTC
timestamp (it parses to 9999-12-31 23:00:00+00:00), yet with a local zone
of UTC+02:00 (offset 120 minutes) the conversion overflows `datetime.max`,
the `except Exception` handler fires, and the formatter returns the
centered `"N/A"` — not the local `YYYY-MM-DD HH:MM:SS` form (the output
contains no `'-'` at all).  So a valid UTC input does not always render as
a local timestamp, refuting that part of C8. -/
theorem C8_report_time_counterexample :
    pyFromIsoformat (pyReplaceZ "9999-12-31T23:00:00Z")
      = some ⟨9999, 12, 31, 23, 0, 0, 0, some 0⟩
    ∧ format_report_time 120 "9999-12-31T23:00:00Z" = pyCenter "N/A" 19
    ∧ strContainsSub (format_report_time 120 "9999-12-31T23:00:00Z") "-" = false :=
  ⟨rfl, rfl, rfl⟩

/-- C8 (amended): `format_report_time` is total and its output always has
exactly 19 characters; an empty input, an unparseable input, or a parsed
timestamp whose local conversion overflows the representable year range
yields `"N/A"` centered in 19 characters; a parseable timestamp whose
local conversion is representable yields the local `YYYY-MM-DD HH:MM:SS`
form centered in 19 characters. -/
theorem C8_report_time_totality (localOff : Int) (s : String) :
    (format_report_time localOff s).length = 19
    ∧ ((s = "" ∨ pyFromIsoformat (pyReplaceZ s) = none
        ∨ (∃ dt, pyFromIsoformat (pyReplaceZ s) = some dt ∧ toLocal localOff dt = none)) →
        format_report_time localOff s = pyCenter "N/A" 19)
    ∧ (∀ dt lt, s ≠ "" → pyFromIsoformat (pyReplaceZ s) = some dt →
        toLocal localOff dt = some lt →
        format_report_time localOff s = pyCenter (strftimeYmdHms lt) 19) := by
  refine ⟨format_report_time_length localOff s, ?_, ?_⟩
  · intro hcase
    rw [format_report_time]
    rcases hcase with he | hp | ⟨dt, hp, hl⟩
    · rw [if_pos he]
    · by_cases he : s = ""
      · rw [if_pos he]
      · rw [if_neg he]
        simp only [hp]
    · by_cases he : s = ""
      · rw [if_pos he]
      · rw [if_neg he]
        simp only [hp, hl]
  · intro dt lt hne hp hl
    rw [format_report_time, if_neg hne]
    simp only [hp, hl]

/-- C8 witness: a concrete UTC timestamp rendered at local offset
UTC−08:00. -/
theorem C8_report_time_totality_witness :
    format_report_time (-480) "2025-12-09T08:54:34.042Z"
      = pyCenter (strftimeYmdHms ⟨2025, 12, 9, 0, 54, 34, 42000, some (-480)⟩) 19 :=
  (C8_report_time_totality (-480) "2025-12-09T08:54:34.042Z").2.2
    ⟨2025, 12, 9, 8, 54, 34, 42000, some 0⟩ _ (by decide) rfl rfl

end YoLink
